import Mathlib

/-!
Shallow embedding of the `ska-telescope/sdp-lmc` sources (Tango SDP local
monitoring-and-control devices) used to check the natural-language
specification claims.

The embedding models:
* the JSON-like values stored in the configuration database
  (`JVal`, `Record`),
* the store of Master / Subarray / SBI / ProcessingBlock /
  ProcessingBlockState records together with the transaction operations of
  the `ska_sdp_config` client that the sources call (`Store`, `Txn.*`),
* the typed state interfaces `MasterState` (master_config.py) and
  `SubarrayState` (subarray_config.py),
* the command guard logic and the command bodies of `SDPMaster` (master.py)
  and `SDPSubarray` (subarray.py),
* the attribute reconciliation logic of `SDPDevice.set_attributes` /
  `_do_transaction` (base.py), `SDPSubarray._set_from_config` (subarray.py)
  and `_RealThread.notify` (event_loop.py).

Python exceptions (AttributeError / TypeError on missing records, and the
Tango `DevFailed` exceptions raised by exceptions.py) are modelled with
`Except DevError`.  A command body runs inside a single configuration-store
transaction (`for txn in self._config.txn(): ...`), so an exception escaping
the body aborts the transaction and leaves the store unchanged; `Except`
with an error result carrying no store models exactly that.
-/

namespace SkaSdpLmc

/-- A JSON-like value as stored in the configuration database.  `null`
models Python `None`. -/
inductive JVal where
  | null : JVal
  | str : String → JVal
  | num : Int → JVal
  | arr : List JVal → JVal
  | obj : List (String × JVal) → JVal
deriving Repr

mutual

/-- Boolean equality on JSON-like values. -/
def JVal.beq : JVal → JVal → Bool
  | .null, .null => true
  | .str a, .str b => a == b
  | .num a, .num b => a == b
  | .arr a, .arr b => JVal.beqList a b
  | .obj a, .obj b => JVal.beqObj a b
  | _, _ => false

/-- Boolean equality on lists of JSON-like values. -/
def JVal.beqList : List JVal → List JVal → Bool
  | [], [] => true
  | a :: as, b :: bs => JVal.beq a b && JVal.beqList as bs
  | _, _ => false

/-- Boolean equality on JSON-like objects. -/
def JVal.beqObj : List (String × JVal) → List (String × JVal) → Bool
  | [], [] => true
  | (k, a) :: as, (l, b) :: bs =>
      k == l && JVal.beq a b && JVal.beqObj as bs
  | _, _ => false

end

mutual

def JVal.eq_of_beq : ∀ {a b : JVal}, JVal.beq a b = true → a = b
  | .null, .null, _ => rfl
  | .str a, .str b, h => by
      simp only [JVal.beq, beq_iff_eq] at h
      rw [h]
  | .num a, .num b, h => by
      simp only [JVal.beq, beq_iff_eq] at h
      rw [h]
  | .arr a, .arr b, h => congrArg JVal.arr (JVal.eqList_of_beq h)
  | .obj a, .obj b, h => congrArg JVal.obj (JVal.eqObj_of_beq h)

def JVal.eqList_of_beq :
    ∀ {a b : List JVal}, JVal.beqList a b = true → a = b
  | [], [], _ => rfl
  | a :: as, b :: bs, h => by
      rw [JVal.beqList, Bool.and_eq_true] at h
      rw [JVal.eq_of_beq h.1, JVal.eqList_of_beq h.2]

def JVal.eqObj_of_beq :
    ∀ {a b : List (String × JVal)}, JVal.beqObj a b = true → a = b
  | [], [], _ => rfl
  | (k, a) :: as, (l, b) :: bs, h => by
      rw [JVal.beqObj, Bool.and_eq_true, Bool.and_eq_true] at h
      rw [beq_iff_eq.mp h.1.1, JVal.eq_of_beq h.1.2, JVal.eqObj_of_beq h.2]

end

mutual

def JVal.beq_refl : ∀ (a : JVal), JVal.beq a a = true
  | .null => rfl
  | .str a => by simp [JVal.beq]
  | .num a => by simp [JVal.beq]
  | .arr a => JVal.beqList_refl a
  | .obj a => JVal.beqObj_refl a

def JVal.beqList_refl : ∀ (a : List JVal), JVal.beqList a a = true
  | [] => rfl
  | a :: as => by
      rw [JVal.beqList, Bool.and_eq_true]
      exact ⟨JVal.beq_refl a, JVal.beqList_refl as⟩

def JVal.beqObj_refl :
    ∀ (a : List (String × JVal)), JVal.beqObj a a = true
  | [] => rfl
  | (k, a) :: as => by
      rw [JVal.beqObj, Bool.and_eq_true, Bool.and_eq_true]
      exact ⟨⟨by simp, JVal.beq_refl a⟩, JVal.beqObj_refl as⟩

end

instance : DecidableEq JVal := fun a b =>
  decidable_of_iff (JVal.beq a b = true)
    ⟨JVal.eq_of_beq, fun h => h ▸ JVal.beq_refl a⟩

instance {ε α : Type} [DecidableEq ε] [DecidableEq α] :
    DecidableEq (Except ε α) := fun a b =>
  match a, b with
  | .ok x, .ok y =>
      match decEq x y with
      | isTrue h => isTrue (h ▸ rfl)
      | isFalse h => isFalse (fun hc => h (Except.ok.inj hc))
  | .error x, .error y =>
      match decEq x y with
      | isTrue h => isTrue (h ▸ rfl)
      | isFalse h => isFalse (fun hc => h (Except.error.inj hc))
  | .ok _, .error _ => isFalse (fun hc => Except.noConfusion hc)
  | .error _, .ok _ => isFalse (fun hc => Except.noConfusion hc)

/-- A configuration-database entry: a Python dict from field names to
values. -/
abbrev Record := List (String × JVal)

/-- Python `d.get(name)`: the value stored under `name`, or `None` when the
key is absent. -/
def pyget (r : Record) (name : String) : JVal :=
  match r.lookup name with
  | some v => v
  | none => JVal.null

/-- Python `d[name] = value`: replace the value under an existing key,
otherwise append the key. -/
def recSet (r : Record) (name : String) (v : JVal) : Record :=
  match r with
  | [] => [(name, v)]
  | (k, w) :: rest =>
      if k = name then (k, v) :: rest else (k, w) :: recSet rest name v

/-- Errors: Python `AttributeError` / `TypeError` (calling a method on
`None`), and the Tango exceptions raised by `exceptions.py` and
`base.py`. -/
inductive DevError where
  | attributeError : DevError
  | typeError : DevError
  | commandFailed (message : String) : DevError
  | commandNotAllowed (command : String) (attrName : String)
      (value : String) : DevError
deriving DecidableEq, Repr

/-- The configuration store, keyed as by the `ska_sdp_config` client used in
base_config.py: one master entry, and subarrays / scheduling blocks /
processing blocks / processing-block states by id. -/
structure Store where
  master : Option Record
  subarrays : String → Option Record
  scheduling_blocks : String → Option Record
  processing_blocks : String → Option Record
  pb_states : String → Option Record

/-- Update one id-keyed map of the store. -/
def updMap (m : String → Option Record) (key : String) (r : Record) :
    String → Option Record :=
  fun i => if i = key then some r else m i

namespace Txn

/-- `txn.get_subarray(subarray_id)`. -/
def get_subarray (s : Store) (i : String) : Option Record := s.subarrays i

/-- `txn.create_subarray(subarray_id, subarray)`. -/
def create_subarray (s : Store) (i : String) (r : Record) : Store :=
  { s with subarrays := updMap s.subarrays i r }

/-- `txn.update_subarray(subarray_id, subarray)`. -/
def update_subarray (s : Store) (i : String) (r : Record) : Store :=
  { s with subarrays := updMap s.subarrays i r }

/-- `txn.get_scheduling_block(sbi_id)`. -/
def get_scheduling_block (s : Store) (i : String) : Option Record :=
  s.scheduling_blocks i

/-- `txn.create_scheduling_block(sbi_id, sbi)`. -/
def create_scheduling_block (s : Store) (i : String) (r : Record) : Store :=
  { s with scheduling_blocks := updMap s.scheduling_blocks i r }

/-- `txn.update_scheduling_block(sbi_id, sbi)`. -/
def update_scheduling_block (s : Store) (i : String) (r : Record) : Store :=
  { s with scheduling_blocks := updMap s.scheduling_blocks i r }

/-- `txn.get_processing_block(pb_id)`. -/
def get_processing_block (s : Store) (i : String) : Option Record :=
  s.processing_blocks i

/-- `txn.create_processing_block(pb)` for a block with id `i`. -/
def create_processing_block (s : Store) (i : String) (r : Record) : Store :=
  { s with processing_blocks := updMap s.processing_blocks i r }

/-- `txn.get_processing_block_state(pb_id)`. -/
def get_processing_block_state (s : Store) (i : String) : Option Record :=
  s.pb_states i

/-- `txn.get_master()`. -/
def get_master (s : Store) : Option Record := s.master

/-- `txn.create_master(master)`. -/
def create_master (s : Store) (r : Record) : Store :=
  { s with master := some r }

/-- `txn.update_master(master)`. -/
def update_master (s : Store) (r : Record) : Store :=
  { s with master := some r }

end Txn

/-- The Tango `DevState` enumeration (`tango.DevState`). -/
inductive DevState where
  | ON | OFF | CLOSE | OPEN | INSERT | EXTRACT | MOVING | STANDBY
  | FAULT | INIT | RUNNING | ALARM | DISABLE | UNKNOWN
deriving DecidableEq, Repr

/-- `DevState` name string, as used when storing `value.name`. -/
def DevState.devName : DevState → String
  | .ON => "ON" | .OFF => "OFF" | .CLOSE => "CLOSE" | .OPEN => "OPEN"
  | .INSERT => "INSERT" | .EXTRACT => "EXTRACT" | .MOVING => "MOVING"
  | .STANDBY => "STANDBY" | .FAULT => "FAULT" | .INIT => "INIT"
  | .RUNNING => "RUNNING" | .ALARM => "ALARM" | .DISABLE => "DISABLE"
  | .UNKNOWN => "UNKNOWN"

/-- Lookup in `DevState.names`: `some` exactly for recognized name
strings. -/
def DevState.ofName : String → Option DevState
  | "ON" => some .ON | "OFF" => some .OFF | "CLOSE" => some .CLOSE
  | "OPEN" => some .OPEN | "INSERT" => some .INSERT
  | "EXTRACT" => some .EXTRACT | "MOVING" => some .MOVING
  | "STANDBY" => some .STANDBY | "FAULT" => some .FAULT
  | "INIT" => some .INIT | "RUNNING" => some .RUNNING
  | "ALARM" => some .ALARM | "DISABLE" => some .DISABLE
  | "UNKNOWN" => some .UNKNOWN
  | _ => none

/-- The `ObsState` enumeration of attributes.py. -/
inductive ObsState where
  | EMPTY | RESOURCING | IDLE | CONFIGURING | READY | SCANNING
  | ABORTING | ABORTED | RESETTING | FAULT | RESTARTING
deriving DecidableEq, Repr

/-- `ObsState` member name string. -/
def ObsState.devName : ObsState → String
  | .EMPTY => "EMPTY" | .RESOURCING => "RESOURCING" | .IDLE => "IDLE"
  | .CONFIGURING => "CONFIGURING" | .READY => "READY"
  | .SCANNING => "SCANNING" | .ABORTING => "ABORTING"
  | .ABORTED => "ABORTED" | .RESETTING => "RESETTING"
  | .FAULT => "FAULT" | .RESTARTING => "RESTARTING"

/-- Lookup in `ObsState.__members__`: `some` exactly for recognized member
names. -/
def ObsState.ofName : String → Option ObsState
  | "EMPTY" => some .EMPTY | "RESOURCING" => some .RESOURCING
  | "IDLE" => some .IDLE | "CONFIGURING" => some .CONFIGURING
  | "READY" => some .READY | "SCANNING" => some .SCANNING
  | "ABORTING" => some .ABORTING | "ABORTED" => some .ABORTED
  | "RESETTING" => some .RESETTING | "FAULT" => some .FAULT
  | "RESTARTING" => some .RESTARTING
  | _ => none

/-- Rendering of a value in an f-string, as in
`f"Scan type {value} is not defined"`. -/
def jvalText : JVal → String
  | JVal.str s => s
  | JVal.null => "None"
  | JVal.num n => toString n
  | JVal.arr _ => "[...]"
  | JVal.obj _ => "{...}"

namespace SubarrayState

/-- `SubarrayState._get(name)` (subarray_config.py).  When the subarray
entry is absent, `subarray.get(name)` is a method call on `None` and raises
`AttributeError`. -/
def sget (s : Store) (sid name : String) : Except DevError JVal :=
  match Txn.get_subarray s sid with
  | none => .error .attributeError
  | some r => .ok (pyget r name)

/-- `SubarrayState._set(name, value)` (subarray_config.py). -/
def sset (s : Store) (sid name : String) (v : JVal) :
    Except DevError Store :=
  match Txn.get_subarray s sid with
  | none => .error .attributeError
  | some r => .ok (Txn.update_subarray s sid (recSet r name v))

/-- `SubarrayState.create_if_not_present(state, obs_state)`
(subarray_config.py). -/
def create_if_not_present (s : Store) (sid : String) (state : DevState)
    (obs_state : ObsState) : Store :=
  match Txn.get_subarray s sid with
  | some _ => s
  | none =>
      Txn.create_subarray s sid
        [("transaction_id", JVal.null), ("last_command", JVal.null),
         ("state", JVal.str state.devName),
         ("obs_state_target", JVal.str obs_state.devName),
         ("sbi_id", JVal.null)]

/-- `SubarrayState._get_sbi(name)`: read an item of the linked SBI entry,
`None` when no SBI is linked.  A non-null `sbi_id` pointing at a missing
SBI makes `sbi.get(name)` raise. -/
def get_sbi (s : Store) (sid name : String) : Except DevError JVal := do
  let sbiId ← sget s sid "sbi_id"
  match sbiId with
  | JVal.null => pure JVal.null
  | JVal.str i =>
      match Txn.get_scheduling_block s i with
      | none => .error .attributeError
      | some sbi => pure (pyget sbi name)
  | _ => .error .attributeError

/-- `SubarrayState._set_sbi(name, value)`: set an item of the linked SBI
entry; does nothing when no SBI is linked. -/
def set_sbi (s : Store) (sid name : String) (v : JVal) :
    Except DevError Store := do
  let sbiId ← sget s sid "sbi_id"
  match sbiId with
  | JVal.null => pure s
  | JVal.str i =>
      match Txn.get_scheduling_block s i with
      | none => .error .attributeError
      | some sbi =>
          pure (Txn.update_scheduling_block s i (recSet sbi name v))
  | _ => .error .attributeError

/-- `SubarrayState.command` getter: the raw `last_command` value. -/
def command (s : Store) (sid : String) : Except DevError JVal :=
  sget s sid "last_command"

/-- `SubarrayState.command` setter. -/
def set_command (s : Store) (sid : String) (v : JVal) :
    Except DevError Store :=
  sset s sid "last_command" v

/-- `SubarrayState.transaction_id` getter. -/
def transaction_id (s : Store) (sid : String) : Except DevError JVal :=
  sget s sid "transaction_id"

/-- `SubarrayState.transaction_id` setter. -/
def set_transaction_id (s : Store) (sid : String) (v : JVal) :
    Except DevError Store :=
  sset s sid "transaction_id" v

/-- `SubarrayState.state` getter: the stored string mapped through
`DevState.names`, `None` for any unrecognized value. -/
def state (s : Store) (sid : String) : Except DevError (Option DevState) := do
  let v ← sget s sid "state"
  pure (match v with
        | JVal.str n => DevState.ofName n
        | _ => none)

/-- `SubarrayState.state` setter: stores `value.name`. -/
def set_state (s : Store) (sid : String) (v : DevState) :
    Except DevError Store :=
  sset s sid "state" (JVal.str v.devName)

/-- `SubarrayState.obs_state_target` getter: the stored string mapped
through `ObsState.__members__`, `None` for any unrecognized value. -/
def obs_state_target (s : Store) (sid : String) :
    Except DevError (Option ObsState) := do
  let v ← sget s sid "obs_state_target"
  pure (match v with
        | JVal.str n => ObsState.ofName n
        | _ => none)

/-- `SubarrayState.obs_state_target` setter: stores `value.name`. -/
def set_obs_state_target (s : Store) (sid : String) (v : ObsState) :
    Except DevError Store :=
  sset s sid "obs_state_target" (JVal.str v.devName)

/-- `SubarrayState.scan_type` getter. -/
def scan_type (s : Store) (sid : String) : Except DevError JVal :=
  get_sbi s sid "current_scan_type"

/-- `[st.get("id") for st in scan_types]`: each scan type must be a dict,
otherwise `st.get` raises. -/
def scanTypeIds : List JVal → Except DevError (List JVal)
  | [] => .ok []
  | JVal.obj r :: rest => do
      let ids ← scanTypeIds rest
      pure (pyget r "id" :: ids)
  | _ :: _ => .error .attributeError

/-- `SubarrayState.scan_type` setter: with a linked SBI and a non-null
value, the value must be among the ids of the SBI scan types, otherwise
`CommandFailed` is raised; the final `_set_sbi` is a no-op when no SBI is
linked. -/
def set_scan_type (s : Store) (sid : String) (v : JVal) :
    Except DevError Store := do
  let sbiId ← sget s sid "sbi_id"
  if sbiId ≠ JVal.null ∧ v ≠ JVal.null then do
    let sts ← get_sbi s sid "scan_types"
    match sts with
    | JVal.arr l => do
        let ids ← scanTypeIds l
        if v ∈ ids then
          set_sbi s sid "current_scan_type" v
        else
          .error (.commandFailed
            ("Scan type " ++ jvalText v ++ " is not defined"))
    | _ => .error .typeError
  else
    set_sbi s sid "current_scan_type" v

/-- `SubarrayState.scan_id` getter. -/
def scan_id (s : Store) (sid : String) : Except DevError JVal :=
  get_sbi s sid "scan_id"

/-- `SubarrayState.scan_id` setter. -/
def set_scan_id (s : Store) (sid : String) (v : JVal) :
    Except DevError Store :=
  set_sbi s sid "scan_id" v

/-- `SubarrayState.receive_addresses` getter (subarray_config.py lines
197–205): follows `pb_receive_addresses` to the processing-block state;
`None` when any link is absent. -/
def receive_addresses (s : Store) (sid : String) : Except DevError JVal := do
  let pbId ← get_sbi s sid "pb_receive_addresses"
  match pbId with
  | JVal.str i =>
      match Txn.get_processing_block_state s i with
      | none => pure JVal.null
      | some pbState => pure (pyget pbState "receive_addresses")
  | _ => pure JVal.null

/-- The loop over `pbs` in `create_sbi_and_pbs`: each processing block
(given by its `pb.id` and its record) must be fresh. -/
def create_pbs : Store → List (String × Record) → Except DevError Store
  | s, [] => .ok s
  | s, (i, r) :: rest =>
      match Txn.get_processing_block s i with
      | some _ => .error (.commandFailed ("PB " ++ i ++ " already exists"))
      | none => create_pbs (Txn.create_processing_block s i r) rest

/-- `SubarrayState.create_sbi_and_pbs(sbi, pbs)` (subarray_config.py lines
207–236): link subarray → SBI, create the SBI (must be fresh), link SBI →
subarray, create the PBs (must be fresh). -/
def create_sbi_and_pbs (s : Store) (sid : String) (sbi : Record)
    (pbs : List (String × Record)) : Except DevError Store := do
  let sbiId := pyget sbi "id"
  let s ← sset s sid "sbi_id" sbiId
  match sbiId with
  | JVal.str i =>
      match Txn.get_scheduling_block s i with
      | some _ => .error (.commandFailed ("SBI " ++ i ++ " already exists"))
      | none => do
          let s ← set_sbi (Txn.create_scheduling_block s i sbi) sid
                    "subarray_id" (JVal.str sid)
          create_pbs s pbs
  | _ => .error .attributeError

/-- `SubarrayState.add_scan_types(new_scan_types)`: append new scan types,
failing on a redefinition. -/
def add_scan_types_loop (sts : List JVal) (ids : List JVal) :
    List JVal → Except DevError (List JVal)
  | [] => .ok sts
  | st :: rest =>
      match st with
      | JVal.obj r =>
          let stId := pyget r "id"
          if stId ∈ ids then
            .error (.commandFailed
              ("Scan type " ++ jvalText stId ++ " is already defined"))
          else
            add_scan_types_loop (sts ++ [st]) (ids ++ [stId]) rest
      | _ => .error .attributeError

/-- `SubarrayState.add_scan_types(new_scan_types)` (subarray_config.py). -/
def add_scan_types (s : Store) (sid : String) (new : Option (List JVal)) :
    Except DevError Store :=
  match new with
  | none => .ok s
  | some nsts => do
      let sts ← get_sbi s sid "scan_types"
      match sts with
      | JVal.arr l => do
          let ids ← scanTypeIds l
          let sts ← add_scan_types_loop l ids nsts
          set_sbi s sid "scan_types" (JVal.arr sts)
      | _ => .error .typeError

/-- `SubarrayState._end_sbi(status)` (subarray_config.py lines 279–298):
sets SBI values, then breaks the subarray → SBI link. -/
def end_sbi (s : Store) (sid status : String) : Except DevError Store := do
  let s ← set_sbi s sid "subarray_id" JVal.null
  let s ← set_sbi s sid "status" (JVal.str status)
  let s ← set_scan_type s sid JVal.null
  let s ← set_scan_id s sid JVal.null
  sset s sid "sbi_id" JVal.null

/-- `SubarrayState.finish_sbi()`. -/
def finish_sbi (s : Store) (sid : String) : Except DevError Store :=
  end_sbi s sid "FINISHED"

/-- `SubarrayState.cancel_sbi()`. -/
def cancel_sbi (s : Store) (sid : String) : Except DevError Store :=
  end_sbi s sid "CANCELLED"

end SubarrayState

namespace MasterState

/-- `MasterState._get(name)` (master_config.py lines 57–66): `None` when
the master entry is absent. -/
def mget (s : Store) (name : String) : JVal :=
  match Txn.get_master s with
  | none => JVal.null
  | some r => pyget r name

/-- `MasterState._set(name, value)` (master_config.py): raises on an
absent master entry (`master[name] = value` on `None`). -/
def mset (s : Store) (name : String) (v : JVal) : Except DevError Store :=
  match Txn.get_master s with
  | none => .error .attributeError
  | some r => .ok (Txn.update_master s (recSet r name v))

/-- `MasterState.create_if_not_present(state)` (master_config.py).  Note
that the master entry has only `transaction_id` and `state` fields. -/
def create_if_not_present (s : Store) (state : DevState) : Store :=
  match Txn.get_master s with
  | some _ => s
  | none =>
      Txn.create_master s
        [("transaction_id", JVal.null), ("state", JVal.str state.devName)]

/-- `MasterState.state` getter (master_config.py lines 80–88). -/
def state (s : Store) : Option DevState :=
  match mget s "state" with
  | JVal.str n => DevState.ofName n
  | _ => none

/-- `MasterState.state` setter. -/
def set_state (s : Store) (v : DevState) : Except DevError Store :=
  mset s "state" (JVal.str v.devName)

/-- `MasterState.transaction_id` getter. -/
def transaction_id (s : Store) : JVal := mget s "transaction_id"

/-- `MasterState.transaction_id` setter. -/
def set_transaction_id (s : Store) (v : JVal) : Except DevError Store :=
  mset s "transaction_id" v

end MasterState

/-- `SDPDevice._command_allowed(command_name, attribute_name, value,
allowed)` (base.py lines 194–227): raises `CommandNotAllowed` naming the
command, the checked attribute and the rendered offending value when the
value is not in the allow-list. -/
def command_allowed {α : Type} [DecidableEq α]
    (command_name attrName : String) (render : α → String) (value : α)
    (allowed : List α) : Except DevError Unit :=
  if value ∈ allowed then .ok ()
  else .error (.commandNotAllowed command_name attrName (render value))

/-- Rendering of `self._obs_state` in the guard message: the member name
for an `ObsState`, `None` when the attribute is unset. -/
def renderObsStateOpt : Option ObsState → String
  | some o => o.devName
  | none => "None"

/-- The commands of the SDP Master device (master.py). -/
inductive MasterCommand where
  | On | Disable | Standby | Off
deriving DecidableEq, Repr

/-- Command name. -/
def MasterCommand.cmdName : MasterCommand → String
  | .On => "On" | .Disable => "Disable" | .Standby => "Standby"
  | .Off => "Off"

/-- Allow-lists of the `is_X_allowed` master guards (master.py). -/
def MasterCommand.allowedStates : MasterCommand → List DevState
  | .On => [.OFF, .STANDBY, .DISABLE]
  | .Disable => [.OFF, .STANDBY, .ON]
  | .Standby => [.OFF, .DISABLE, .ON]
  | .Off => [.STANDBY, .DISABLE, .ON]

/-- Device state written by each master command body (master.py). -/
def MasterCommand.targetState : MasterCommand → DevState
  | .On => .ON | .Disable => .DISABLE | .Standby => .STANDBY | .Off => .OFF

namespace SDPMaster

/-- `SDPMaster.is_X_allowed` (master.py): check the current device state
against the command's allow-list. -/
def is_allowed (c : MasterCommand) (devState : DevState) :
    Except DevError Unit :=
  command_allowed c.cmdName "device state" DevState.devName devState
    c.allowedStates

/-- The transactional body of each master command (master.py lines
97–168): stamp the transaction id, then write the new device state.  The
master entry has no `last_command` field and none is written. -/
def body (c : MasterCommand) (txnId : String) (s : Store) :
    Except DevError Store := do
  let s ← MasterState.set_transaction_id s (JVal.str txnId)
  MasterState.set_state s c.targetState

/-- Invocation of a master command: the Tango layer evaluates the
`is_X_allowed` guard first; only if it passes does the transactional body
run. -/
def invoke (s : Store) (devState : DevState) (c : MasterCommand)
    (txnId : String) : Except DevError Store := do
  is_allowed c devState
  body c txnId s

/-- The configuration store visible after a master command call: the body
runs inside one store transaction, so an exception leaves the store
unchanged. -/
def invokeStore (s : Store) (devState : DevState) (c : MasterCommand)
    (txnId : String) : Store :=
  match invoke s devState c txnId with
  | .ok s' => s'
  | .error _ => s

end SDPMaster

/-- The commands of the SDP Subarray device (subarray.py). -/
inductive SubarrayCommand where
  | On | Off | AssignResources | ReleaseResources | Configure | Scan
  | EndScan | End | Abort | ObsReset | Restart
deriving DecidableEq, Repr

/-- Command name. -/
def SubarrayCommand.cmdName : SubarrayCommand → String
  | .On => "On" | .Off => "Off" | .AssignResources => "AssignResources"
  | .ReleaseResources => "ReleaseResources" | .Configure => "Configure"
  | .Scan => "Scan" | .EndScan => "EndScan" | .End => "End"
  | .Abort => "Abort" | .ObsReset => "ObsReset" | .Restart => "Restart"

/-- Device-state allow-lists of the subarray `is_X_allowed` guards
(subarray.py). -/
def SubarrayCommand.allowedStates : SubarrayCommand → List DevState
  | .On => [.OFF]
  | .Off => [.ON]
  | .AssignResources => [.ON]
  | .ReleaseResources => [.ON]
  | .Configure => [.ON]
  | .Scan => [.ON]
  | .EndScan => [.ON]
  | .End => [.ON]
  | .Abort => [.ON]
  | .ObsReset => [.ON]
  | .Restart => [.ON]

/-- ObsState allow-lists of the subarray `is_X_allowed` guards
(subarray.py); `none` when the guard has no obsState check (only `Off`). -/
def SubarrayCommand.allowedObsStates :
    SubarrayCommand → Option (List ObsState)
  | .On => some [.EMPTY]
  | .Off => none
  | .AssignResources => some [.EMPTY]
  | .ReleaseResources => some [.IDLE]
  | .Configure => some [.IDLE, .READY]
  | .Scan => some [.READY]
  | .EndScan => some [.SCANNING]
  | .End => some [.READY]
  | .Abort => some [.IDLE, .CONFIGURING, .READY, .SCANNING, .RESETTING]
  | .ObsReset => some [.ABORTED, .FAULT]
  | .Restart => some [.ABORTED, .FAULT]

/-- The combined allow-list of a subarray command's guard: the current
device state must be in the command's state allow-list and — when the
guard checks obsState — the device's `_obs_state` must be one of the
allowed obsState values (an unset `None` never is). -/
def SubarrayCommand.comboAllowed (c : SubarrayCommand) (d : DevState)
    (o : Option ObsState) : Bool :=
  decide (d ∈ c.allowedStates) &&
    match c.allowedObsStates with
    | none => true
    | some l => decide (o ∈ l.map some)

/-- The validated payload passed to a subarray command body, already parsed
by subarray_validation.py (an external concern for these claims). -/
inductive SubarrayArg where
  | noArg
  | assign (sbi : Record) (pbs : List (String × Record))
  | configure (newScanTypes : Option (List JVal)) (scanType : JVal)
  | scan (scanId : JVal)
deriving DecidableEq, Repr

namespace SDPSubarray

/-- `SDPSubarray.is_X_allowed` (subarray.py): check device state, then —
for all commands except `Off` — the device's `_obs_state` attribute, which
may still be unset (`None`). -/
def is_allowed (c : SubarrayCommand) (devState : DevState)
    (obsState : Option ObsState) : Except DevError Unit := do
  command_allowed c.cmdName "device state" DevState.devName devState
    c.allowedStates
  match c.allowedObsStates with
  | none => .ok ()
  | some l =>
      command_allowed c.cmdName "obsState" renderObsStateOpt obsState
        (l.map some)

/-- The transactional body of each subarray command (subarray.py lines
200–471), written against the `SubarrayState` interface exactly as the
source.  `deviceObsState` is `self._obs_state`, used only by `Off`. -/
def body (c : SubarrayCommand) (sid txnId : String) (arg : SubarrayArg)
    (deviceObsState : Option ObsState) (s : Store) :
    Except DevError Store :=
  match c, arg with
  | .On, _ => do
      let s ← SubarrayState.set_command s sid (JVal.str "On")
      let s ← SubarrayState.set_transaction_id s sid (JVal.str txnId)
      let s ← SubarrayState.set_state s sid DevState.ON
      SubarrayState.set_obs_state_target s sid ObsState.EMPTY
  | .Off, _ =>
      if deviceObsState = some ObsState.EMPTY then do
        let s ← SubarrayState.set_command s sid (JVal.str "Off")
        let s ← SubarrayState.set_transaction_id s sid (JVal.str txnId)
        SubarrayState.set_state s sid DevState.OFF
      else do
        let s ← SubarrayState.set_command s sid (JVal.str "Off")
        let s ← SubarrayState.set_transaction_id s sid (JVal.str txnId)
        let s ← SubarrayState.set_state s sid DevState.OFF
        let s ← SubarrayState.set_obs_state_target s sid ObsState.EMPTY
        SubarrayState.cancel_sbi s sid
  | .AssignResources, .assign sbi pbs => do
      let s ← SubarrayState.set_command s sid (JVal.str "AssignResources")
      let s ← SubarrayState.set_transaction_id s sid (JVal.str txnId)
      let s ← SubarrayState.set_obs_state_target s sid ObsState.IDLE
      SubarrayState.create_sbi_and_pbs s sid sbi pbs
  | .ReleaseResources, _ => do
      let s ← SubarrayState.set_command s sid (JVal.str "ReleaseResources")
      let s ← SubarrayState.set_transaction_id s sid (JVal.str txnId)
      let s ← SubarrayState.set_obs_state_target s sid ObsState.EMPTY
      SubarrayState.finish_sbi s sid
  | .Configure, .configure newScanTypes scanType => do
      let s ← SubarrayState.set_command s sid (JVal.str "Configure")
      let s ← SubarrayState.set_transaction_id s sid (JVal.str txnId)
      let s ← SubarrayState.set_obs_state_target s sid ObsState.READY
      let s ← SubarrayState.add_scan_types s sid newScanTypes
      SubarrayState.set_scan_type s sid scanType
  | .Scan, .scan scanId => do
      let s ← SubarrayState.set_command s sid (JVal.str "Scan")
      let s ← SubarrayState.set_transaction_id s sid (JVal.str txnId)
      let s ← SubarrayState.set_obs_state_target s sid ObsState.SCANNING
      SubarrayState.set_scan_id s sid scanId
  | .EndScan, _ => do
      let s ← SubarrayState.set_command s sid (JVal.str "EndScan")
      let s ← SubarrayState.set_transaction_id s sid (JVal.str txnId)
      let s ← SubarrayState.set_obs_state_target s sid ObsState.READY
      SubarrayState.set_scan_id s sid JVal.null
  | .End, _ => do
      let s ← SubarrayState.set_command s sid (JVal.str "End")
      let s ← SubarrayState.set_transaction_id s sid (JVal.str txnId)
      let s ← SubarrayState.set_obs_state_target s sid ObsState.IDLE
      SubarrayState.set_scan_type s sid JVal.null
  | .Abort, _ => do
      let s ← SubarrayState.set_command s sid (JVal.str "Abort")
      let s ← SubarrayState.set_transaction_id s sid (JVal.str txnId)
      SubarrayState.set_obs_state_target s sid ObsState.ABORTED
  | .ObsReset, _ => do
      let s ← SubarrayState.set_command s sid (JVal.str "ObsReset")
      let s ← SubarrayState.set_transaction_id s sid (JVal.str txnId)
      let s ← SubarrayState.set_obs_state_target s sid ObsState.IDLE
      let s ← SubarrayState.set_scan_type s sid JVal.null
      SubarrayState.set_scan_id s sid JVal.null
  | .Restart, _ => do
      let s ← SubarrayState.set_command s sid (JVal.str "Restart")
      let s ← SubarrayState.set_transaction_id s sid (JVal.str txnId)
      let s ← SubarrayState.set_obs_state_target s sid ObsState.EMPTY
      SubarrayState.cancel_sbi s sid
  | _, _ => .error .typeError

/-- Invocation of a subarray command: the `is_X_allowed` guard runs first,
then the transactional body. -/
def invoke (s : Store) (sid : String) (devState : DevState)
    (obsState : Option ObsState) (c : SubarrayCommand) (txnId : String)
    (arg : SubarrayArg) : Except DevError Store := do
  is_allowed c devState obsState
  body c sid txnId arg obsState s

/-- The configuration store visible after a subarray command call. -/
def invokeStore (s : Store) (sid : String) (devState : DevState)
    (obsState : Option ObsState) (c : SubarrayCommand) (txnId : String)
    (arg : SubarrayArg) : Store :=
  match invoke s sid devState obsState c txnId arg with
  | .ok s' => s'
  | .error _ => s

end SDPSubarray

/-- The obsState computation of `SDPSubarray._set_from_config`
(subarray.py lines 562–571). -/
def deriveObsState (s : Store) (sid : String) :
    Except DevError (Option ObsState) := do
  let target ← SubarrayState.obs_state_target s sid
  let cmd ← SubarrayState.command s sid
  if target = some ObsState.IDLE ∧ cmd = JVal.str "AssignResources" then do
    let ra ← SubarrayState.receive_addresses s sid
    if ra = JVal.null then pure (some ObsState.RESOURCING)
    else pure (some ObsState.IDLE)
  else
    pure target

/-- The published attribute values of the subarray device: the backing
fields written by `_set_state` / `_set_receive_addresses` /
`_set_scan_type` / `_set_scan_id` / `_set_obs_state` (subarray.py). -/
structure SubAttrs where
  devState : Option DevState
  receiveAddresses : JVal
  scanType : JVal
  scanId : JVal
  obsState : Option ObsState
deriving DecidableEq, Repr

/-- Observable events of the reconciliation loop: a change notification
pushed for one attribute, and the condition-variable signal at the end of
one transaction (`notify_all` is a broadcast wake, `notify` a single
wake). -/
inductive LoopEvent where
  | publish (attrName : String)
  | notifyAll
  | notifyOne
deriving DecidableEq, Repr

/-- True only for `publish` events. -/
def LoopEvent.isPublish : LoopEvent → Prop
  | .publish _ => True
  | _ => False

instance (e : LoopEvent) : Decidable e.isPublish := by
  cases e <;> simp [LoopEvent.isPublish] <;> infer_instance

/-- The `if self._x != value: self._x = value; self.push_change_event(...)`
pattern of every attribute setter: push a change notification only when the
value changed. -/
def pushIfChanged {α : Type} [DecidableEq α] (attrName : String)
    (old new : α) (evs : List LoopEvent) : List LoopEvent :=
  if old ≠ new then evs ++ [LoopEvent.publish attrName] else evs

/-- Python truthiness of a JSON-like value, for
`subarray.scan_type if subarray.scan_type else 'null'`. -/
def truthy : JVal → Bool
  | JVal.null => false
  | JVal.str s => s ≠ ""
  | JVal.num n => n ≠ 0
  | JVal.arr l => l ≠ []
  | JVal.obj l => l ≠ []

namespace SDPSubarray

/-- `SDPSubarray._set_from_config(txn)` (subarray.py lines 543–571): read
the subarray state from the store and update each published attribute,
pushing a change notification for every attribute whose value changed.
Returns the new attribute values and the pushed notifications, in order. -/
def set_from_config (a : SubAttrs) (s : Store) (sid : String) :
    Except DevError (SubAttrs × List LoopEvent) := do
  let _ ← SubarrayState.transaction_id s sid
  let st ← SubarrayState.state s sid
  let ra ← SubarrayState.receive_addresses s sid
  let sct ← SubarrayState.scan_type s sid
  let sci ← SubarrayState.scan_id s sid
  let scanTypeVal := if truthy sct then sct else JVal.str "null"
  let scanIdVal := if truthy sci then sci else JVal.num 0
  let obs ← deriveObsState s sid
  let evs := pushIfChanged "State" a.devState st []
  let a := { a with devState := st }
  let evs := pushIfChanged "receiveAddresses" a.receiveAddresses ra evs
  let a := { a with receiveAddresses := ra }
  let evs := pushIfChanged "scanType" a.scanType scanTypeVal evs
  let a := { a with scanType := scanTypeVal }
  let evs := pushIfChanged "scanID" a.scanId scanIdVal evs
  let a := { a with scanId := scanIdVal }
  let evs := pushIfChanged "obsState" a.obsState obs evs
  let a := { a with obsState := obs }
  pure (a, evs)

/-- `SDPDevice._do_transaction(txn_wrapper)` (base.py lines 152–155) for
the subarray device: apply `_set_from_config` inside the yielded
transaction, then `self._event_loop.notify()`, which is
`condition.notify_all()` in `_RealThread.notify` (event_loop.py lines
95–99). -/
def do_transaction (a : SubAttrs) (s : Store) (sid : String) :
    Except DevError (SubAttrs × List LoopEvent) := do
  let (a, evs) ← set_from_config a s sid
  pure (a, evs ++ [LoopEvent.notifyAll])

/-- The watch branch of `SDPDevice.set_attributes` (base.py lines
157–185) for the subarray device, over the list of store snapshots yielded
by the watcher.  The `try` block wraps the whole `for` loop: an exception
raised while applying one transaction propagates out of the loop, is
caught and logged by the `except` clause, and the function returns — the
loop does not continue with later transactions.  The `deleting` flag makes
the loop break before applying anything. -/
def set_attributes_watch (sid : String) (deleting : Bool) (a : SubAttrs) :
    List Store → SubAttrs
  | [] => a
  | s :: rest =>
      if deleting then a
      else
        match do_transaction a s sid with
        | .ok (a', _) => set_attributes_watch sid deleting a' rest
        | .error _ => a

end SDPSubarray

/-- The methods defined on the device classes of this repository
(`SDPDevice` in base.py, `SDPMaster` in master.py, `SDPSubarray` in
subarray.py), plus the test commands registered by `_add_commands`
(event_loop.py).  The Tango `Device` base class (an external collaborator)
defines none of the queue-flushing methods. -/
def deviceMethodTable : List String :=
  ["init_device", "delete_device", "always_executed_hook", "read_version",
   "stop_event_loop", "acquire", "release", "wait_for_event",
   "flush_update_queue", "update_attributes", "set_attributes",
   "read_healthState", "read_obsState", "read_adminMode",
   "read_receiveAddresses", "read_scanType", "read_scanID",
   "write_adminMode",
   "is_On_allowed", "On", "is_Off_allowed", "Off",
   "is_Disable_allowed", "Disable", "is_Standby_allowed", "Standby",
   "is_AssignResources_allowed", "AssignResources",
   "is_ReleaseResources_allowed", "ReleaseResources",
   "is_Configure_allowed", "Configure", "is_Scan_allowed", "Scan",
   "is_EndScan_allowed", "EndScan", "is_End_allowed", "End",
   "is_Abort_allowed", "Abort", "is_ObsReset_allowed", "ObsReset",
   "is_Restart_allowed", "Restart"]

/-- A Python attribute access `self.<name>()` on a device: raises
`AttributeError` when no such method is defined. -/
def callMethod (methods : List String) (name : String) :
    Except DevError Unit :=
  if name ∈ methods then .ok () else .error .attributeError

/-- The `command_transaction` wrapper (commands.py lines 36–60) after
parameter parsing: run the command body under the event-loop lock
(`self._event_loop.do`), then call `self.flush_event_queue()`, then return
the body's result. -/
def command_transaction_wrapper {β : Type} (methods : List String)
    (body : Except DevError β) : Except DevError β := do
  let r ← body
  let _ ← callMethod methods "flush_event_queue"
  pure r

/-! Concrete configuration-store fixtures used to evaluate the definitions
on explicit inputs (counterexamples and witnesses). -/

/-- The empty store. -/
def emptyStore : Store :=
  { master := none, subarrays := fun _ => none,
    scheduling_blocks := fun _ => none, processing_blocks := fun _ => none,
    pb_states := fun _ => none }

/-- Store with the master entry as created at device initialisation. -/
def storeMaster : Store :=
  MasterState.create_if_not_present emptyStore DevState.STANDBY

/-- Store with the subarray `"01"` entry as created at device
initialisation. -/
def storeSubInit : Store :=
  SubarrayState.create_if_not_present emptyStore "01" DevState.OFF
    ObsState.EMPTY

/-- Subarray entry right after a successful `AssignResources`. -/
def subRecAssigned : Record :=
  [("transaction_id", JVal.str "txn-1"),
   ("last_command", JVal.str "AssignResources"),
   ("state", JVal.str "ON"), ("obs_state_target", JVal.str "IDLE"),
   ("sbi_id", JVal.str "sbi-001")]

/-- An SBI entry linked to subarray `"01"`. -/
def sbiRec1 : Record :=
  [("id", JVal.str "sbi-001"), ("subarray_id", JVal.str "01"),
   ("scan_types", JVal.arr [JVal.obj [("id", JVal.str "science_A")]]),
   ("pb_realtime", JVal.arr [JVal.str "pb-001"]),
   ("pb_batch", JVal.arr []),
   ("pb_receive_addresses", JVal.str "pb-001"),
   ("current_scan_type", JVal.null), ("scan_id", JVal.null),
   ("status", JVal.str "ACTIVE")]

/-- Store in the post-`AssignResources` situation with the receive
addresses not yet resolved (no processing-block state entry). -/
def storeResourcing : Store :=
  { master := none,
    subarrays := updMap (fun _ => none) "01" subRecAssigned,
    scheduling_blocks := updMap (fun _ => none) "sbi-001" sbiRec1,
    processing_blocks :=
      updMap (fun _ => none) "pb-001" [("id", JVal.str "pb-001")],
    pb_states := fun _ => none }

/-- `storeResourcing` after the real-time workflow has written the receive
addresses into the processing-block state. -/
def storeResolved : Store :=
  { storeResourcing with
    pb_states :=
      updMap (fun _ => none) "pb-001"
        [("status", JVal.str "RUNNING"),
         ("receive_addresses", JVal.obj [("host", JVal.str "10.0.0.1")])] }

/-- A subarray entry whose stored `obs_state_target` is the string
`"RESOURCING"` (representable in the store, never written by a command). -/
def subRecTargetResourcing : Record :=
  [("transaction_id", JVal.null), ("last_command", JVal.null),
   ("state", JVal.str "ON"),
   ("obs_state_target", JVal.str "RESOURCING"), ("sbi_id", JVal.null)]

/-- Store holding `subRecTargetResourcing` under subarray `"01"`. -/
def storeTargetResourcing : Store :=
  { emptyStore with
    subarrays := updMap (fun _ => none) "01" subRecTargetResourcing }

/-- A subarray entry after a successful `On` command. -/
def subRecOn : Record :=
  [("transaction_id", JVal.str "txn-1"), ("last_command", JVal.str "On"),
   ("state", JVal.str "ON"), ("obs_state_target", JVal.str "EMPTY"),
   ("sbi_id", JVal.null)]

/-- Store holding `subRecOn` under subarray `"01"`. -/
def storeOnEmpty : Store :=
  { emptyStore with subarrays := updMap (fun _ => none) "01" subRecOn }

/-- The subarray device attribute values right after `init_device`
(subarray.py lines 104–110; the Tango device state is `INIT`). -/
def attrsInit : SubAttrs :=
  { devState := some DevState.INIT, receiveAddresses := JVal.null,
    scanType := JVal.str "null", scanId := JVal.num 0, obsState := none }

/-- Observation of a master-command result: the raw value stored under a
field of the master entry (avoids comparing whole stores). -/
def masterObs (r : Except DevError Store) (name : String) :
    Except DevError (Option JVal) :=
  r.map (fun s =>
    match s.master with
    | none => none
    | some rec => rec.lookup name)

/-- Store with both the master entry and the subarray `"01"` entry in their
initial states. -/
def storeBoth : Store := { storeSubInit with master := storeMaster.master }

/-- The subarray entry as written by `create_if_not_present` with the
initial `OFF` / `EMPTY` states. -/
def subRecInit : Record :=
  [("transaction_id", JVal.null), ("last_command", JVal.null),
   ("state", JVal.str "OFF"), ("obs_state_target", JVal.str "EMPTY"),
   ("sbi_id", JVal.null)]

/-- The master entry as written by `create_if_not_present` with the
initial `STANDBY` state. -/
def masterRecInit : Record :=
  [("transaction_id", JVal.null), ("state", JVal.str "STANDBY")]

/-- A fresh SBI payload for `create_sbi_and_pbs`. -/
def sbiRecNew : Record :=
  [("id", JVal.str "sbi-002"),
   ("scan_types", JVal.arr [JVal.obj [("id", JVal.str "science_B")]]),
   ("pb_realtime", JVal.arr [JVal.str "pb-002"]),
   ("pb_batch", JVal.arr []), ("pb_receive_addresses", JVal.str "pb-002"),
   ("current_scan_type", JVal.null), ("scan_id", JVal.null),
   ("status", JVal.str "ACTIVE")]

/-- A fresh processing-block list for `create_sbi_and_pbs`. -/
def pbsNew : List (String × Record) :=
  [("pb-002", [("id", JVal.str "pb-002"), ("sbi_id", JVal.str "sbi-002")])]

/-! ## Helper lemmas -/

@[simp]
theorem pure_eq_ok {ε α : Type} (a : α) : (pure a : Except ε α) = .ok a :=
  rfl

@[simp]
theorem bind_ok_left {ε α β : Type} (a : α) (f : α → Except ε β) :
    (Except.ok a >>= f : Except ε β) = f a := rfl

@[simp]
theorem bind_error_left {ε α β : Type} (e : ε) (f : α → Except ε β) :
    ((Except.error e : Except ε α) >>= f) = .error e := rfl

theorem except_bind_ok {ε α β : Type} {x : Except ε α} {f : α → Except ε β}
    {b : β} (h : x >>= f = .ok b) : ∃ a, x = .ok a ∧ f a = .ok b := by
  cases x with
  | error e => simp at h
  | ok a => exact ⟨a, rfl, by simpa using h⟩

theorem pyget_recSet_self (r : Record) (k : String) (v : JVal) :
    pyget (recSet r k v) k = v := by
  induction r with
  | nil => simp [recSet, pyget, List.lookup]
  | cons p rest ih =>
      obtain ⟨key, w⟩ := p
      by_cases h : key = k
      · subst h
        simp [recSet, pyget, List.lookup]
      · have hb : (k == key) = false := beq_eq_false_iff_ne.mpr (Ne.symm h)
        simp only [recSet, if_neg h, pyget, List.lookup, hb]
        simpa only [pyget] using ih

theorem pyget_recSet_ne (r : Record) (k k' : String) (v : JVal)
    (h : k' ≠ k) : pyget (recSet r k v) k' = pyget r k' := by
  have hb : (k' == k) = false := beq_eq_false_iff_ne.mpr h
  induction r with
  | nil => simp [recSet, pyget, List.lookup, hb]
  | cons p rest ih =>
      obtain ⟨key, w⟩ := p
      by_cases hk : key = k
      · subst hk
        simp [recSet, pyget, List.lookup, hb]
      · by_cases hk' : k' = key
        · subst hk'
          simp [recSet, hk, pyget, List.lookup]
        · have hb' : (k' == key) = false := beq_eq_false_iff_ne.mpr hk'
          simp only [recSet, if_neg hk, pyget, List.lookup, hb']
          simpa only [pyget] using ih

@[simp]
theorem updMap_self (m : String → Option Record) (k : String) (r : Record) :
    updMap m k r k = some r := by simp [updMap]

theorem updMap_ne (m : String → Option Record) (k : String) (r : Record)
    (i : String) (h : i ≠ k) : updMap m k r i = m i := by simp [updMap, h]

theorem sget_of_get {s : Store} {sid : String} {r : Record}
    (h : Txn.get_subarray s sid = some r) (name : String) :
    SubarrayState.sget s sid name = .ok (pyget r name) := by
  simp [SubarrayState.sget, h]

theorem sset_of_get {s : Store} {sid : String} {r : Record}
    (h : Txn.get_subarray s sid = some r) (name : String) (v : JVal) :
    SubarrayState.sset s sid name v =
      .ok (Txn.update_subarray s sid (recSet r name v)) := by
  simp [SubarrayState.sset, h]

theorem get_subarray_update_self (s : Store) (sid : String) (r : Record) :
    Txn.get_subarray (Txn.update_subarray s sid r) sid = some r := by
  simp [Txn.get_subarray, Txn.update_subarray]

theorem set_sbi_of_linked {s : Store} {sid : String} {r : Record}
    {i : String} {sbi : Record}
    (hr : Txn.get_subarray s sid = some r)
    (hid : pyget r "sbi_id" = JVal.str i)
    (hsbi : Txn.get_scheduling_block s i = some sbi)
    (name : String) (v : JVal) :
    SubarrayState.set_sbi s sid name v =
      .ok (Txn.update_scheduling_block s i (recSet sbi name v)) := by
  simp [SubarrayState.set_sbi, sget_of_get hr, hid, hsbi]

theorem set_sbi_of_unlinked {s : Store} {sid : String} {r : Record}
    (hr : Txn.get_subarray s sid = some r)
    (hnull : pyget r "sbi_id" = JVal.null) (name : String) (v : JVal) :
    SubarrayState.set_sbi s sid name v = .ok s := by
  simp [SubarrayState.set_sbi, sget_of_get hr, hnull]

/-! ## Claim C1: derivation of the published obsState -/

/-- C1 (amended): given readable `obs_state_target`, `last_command` and
`receive_addresses`, the obsState derived by `_set_from_config` is
`RESOURCING` exactly when either the target is `IDLE`, the last command is
`"AssignResources"` and the receive addresses are unresolved, or the
stored target is itself `RESOURCING`; it is `IDLE` when the first two
conditions hold and the receive addresses have resolved; in every other
case it equals the stored target. -/
theorem derived_obs_state_characterisation (s : Store) (sid : String)
    (t : Option ObsState) (c : JVal) (r : JVal)
    (h1 : SubarrayState.obs_state_target s sid = .ok t)
    (h2 : SubarrayState.command s sid = .ok c)
    (h3 : SubarrayState.receive_addresses s sid = .ok r) :
    (deriveObsState s sid = .ok (some ObsState.RESOURCING) ↔
      ((t = some ObsState.IDLE ∧ c = JVal.str "AssignResources" ∧
        r = JVal.null) ∨ t = some ObsState.RESOURCING)) ∧
    ((t = some ObsState.IDLE ∧ c = JVal.str "AssignResources" ∧
        r ≠ JVal.null) → deriveObsState s sid = .ok (some ObsState.IDLE)) ∧
    (¬ (t = some ObsState.IDLE ∧ c = JVal.str "AssignResources") →
        deriveObsState s sid = .ok t) := by
  by_cases hc : t = some ObsState.IDLE ∧ c = JVal.str "AssignResources"
  · by_cases hr : r = JVal.null
    · have hd : deriveObsState s sid = .ok (some ObsState.RESOURCING) := by
        unfold deriveObsState
        rw [h1]
        simp only [bind_ok_left]
        rw [h2]
        simp only [bind_ok_left]
        rw [if_pos hc, h3]
        simp only [bind_ok_left]
        rw [if_pos hr]
        simp only [pure_eq_ok]
      refine ⟨⟨fun _ => Or.inl ⟨hc.1, hc.2, hr⟩, fun _ => hd⟩,
              fun hcon => absurd hr hcon.2.2, fun hcon => absurd hc hcon⟩
    · have hd : deriveObsState s sid = .ok (some ObsState.IDLE) := by
        unfold deriveObsState
        rw [h1]
        simp only [bind_ok_left]
        rw [h2]
        simp only [bind_ok_left]
        rw [if_pos hc, h3]
        simp only [bind_ok_left]
        rw [if_neg hr]
        simp only [pure_eq_ok]
      refine ⟨⟨fun hres => ?_, fun hor => ?_⟩, fun _ => hd,
              fun hcon => absurd hc hcon⟩
      · rw [hd] at hres
        exact absurd hres (by decide)
      · rcases hor with hcon | ht
        · exact absurd hcon.2.2 hr
        · rw [hc.1] at ht
          exact absurd ht (by decide)
  · have hd : deriveObsState s sid = .ok t := by
      unfold deriveObsState
      rw [h1]
      simp only [bind_ok_left]
      rw [h2]
      simp only [bind_ok_left]
      rw [if_neg hc]
      simp only [pure_eq_ok]
    refine ⟨⟨fun hres => ?_, fun hor => ?_⟩,
            fun hcon => absurd ⟨hcon.1, hcon.2.1⟩ hc, fun _ => hd⟩
    · rw [hd] at hres
      exact Or.inr (Except.ok.inj hres)
    · rcases hor with hcon | ht
      · exact absurd ⟨hcon.1, hcon.2.1⟩ hc
      · rw [hd, ht]

/-- C1 counterexample to the claim as stated: a subarray entry whose
stored `obs_state_target` is `"RESOURCING"` derives obsState `RESOURCING`
although the target is not `IDLE` and the last command is not
`"AssignResources"`. -/
theorem derived_obs_state_claim_counterexample :
    deriveObsState storeTargetResourcing "01" =
      .ok (some ObsState.RESOURCING) ∧
    SubarrayState.obs_state_target storeTargetResourcing "01" =
      .ok (some ObsState.RESOURCING) ∧
    SubarrayState.obs_state_target storeTargetResourcing "01" ≠
      .ok (some ObsState.IDLE) ∧
    SubarrayState.command storeTargetResourcing "01" = .ok JVal.null := by
  decide

/-- Witness for C1's amended theorem at the concrete post-AssignResources
store with unresolved receive addresses. -/
theorem derived_obs_state_characterisation_witness :
    deriveObsState storeResourcing "01" = .ok (some ObsState.RESOURCING) :=
  ((derived_obs_state_characterisation storeResourcing "01"
      (some ObsState.IDLE) (JVal.str "AssignResources") JVal.null
      (by decide) (by decide) (by decide)).1).mpr
    (Or.inl ⟨rfl, rfl, rfl⟩)

/-! ## More helper lemmas: reading back after writes -/

theorem sset_ok_sget_self {s : Store} {sid k : String} {v : JVal}
    {s' : Store} (h : SubarrayState.sset s sid k v = .ok s') :
    SubarrayState.sget s' sid k = .ok v := by
  unfold SubarrayState.sset at h
  cases hr : Txn.get_subarray s sid with
  | none => rw [hr] at h; exact absurd h (by simp)
  | some r =>
      rw [hr] at h
      have hs : Txn.update_subarray s sid (recSet r k v) = s' :=
        Except.ok.inj h
      rw [← hs, sget_of_get (get_subarray_update_self s sid _) k,
          pyget_recSet_self]

theorem sset_ok_sget_ne {s : Store} {sid k : String} {v : JVal} {s' : Store}
    (h : SubarrayState.sset s sid k v = .ok s') {k' : String}
    (hk : k' ≠ k) :
    SubarrayState.sget s' sid k' = SubarrayState.sget s sid k' := by
  unfold SubarrayState.sset at h
  cases hr : Txn.get_subarray s sid with
  | none => rw [hr] at h; exact absurd h (by simp)
  | some r =>
      rw [hr] at h
      have hs : Txn.update_subarray s sid (recSet r k v) = s' :=
        Except.ok.inj h
      rw [← hs, sget_of_get (get_subarray_update_self s sid _) k',
          pyget_recSet_ne r k k' v hk, sget_of_get hr k']

theorem mset_ok_mget_self {s : Store} {k : String} {v : JVal} {s' : Store}
    (h : MasterState.mset s k v = .ok s') : MasterState.mget s' k = v := by
  unfold MasterState.mset at h
  cases hr : Txn.get_master s with
  | none => rw [hr] at h; exact absurd h (by simp)
  | some r =>
      rw [hr] at h
      have hs := Except.ok.inj h
      rw [← hs]
      simp [MasterState.mget, Txn.get_master, Txn.update_master,
            pyget_recSet_self]

theorem mset_ok_mget_ne {s : Store} {k : String} {v : JVal} {s' : Store}
    (h : MasterState.mset s k v = .ok s') {k' : String} (hk : k' ≠ k) :
    MasterState.mget s' k' = MasterState.mget s k' := by
  unfold MasterState.mset at h
  cases hr : Txn.get_master s with
  | none => rw [hr] at h; exact absurd h (by simp)
  | some r =>
      rw [hr] at h
      have hs := Except.ok.inj h
      rw [← hs]
      simp [MasterState.mget, Txn.get_master, Txn.update_master,
            pyget_recSet_ne r k k' v hk, show s.master = some r from hr]

theorem sget_preserved_of_subarrays_eq {s s' : Store}
    (h : s'.subarrays = s.subarrays) (sid k : String) :
    SubarrayState.sget s' sid k = SubarrayState.sget s sid k := by
  simp [SubarrayState.sget, Txn.get_subarray, h]

theorem set_sbi_subarrays_eq {s : Store} {sid name : String} {v : JVal}
    {s' : Store} (h : SubarrayState.set_sbi s sid name v = .ok s') :
    s'.subarrays = s.subarrays := by
  unfold SubarrayState.set_sbi at h
  obtain ⟨b, hb, h⟩ := except_bind_ok h
  cases b with
  | null =>
      simp only [pure_eq_ok, Except.ok.injEq] at h
      rw [← h]
  | str i =>
      cases hsbi : Txn.get_scheduling_block s i with
      | none =>
          simp only [hsbi] at h
          exact absurd h (by simp)
      | some sbi =>
          simp only [hsbi, pure_eq_ok, Except.ok.injEq] at h
          rw [← h]
          rfl
  | num n => exact absurd h (by simp)
  | arr l => exact absurd h (by simp)
  | obj l => exact absurd h (by simp)

/-! ## Claim C2: error handling in the watcher loop -/

/-- C2 counterexample to the claim as stated: with a watch stream of two
transactions where applying the first raises (the subarray entry is
absent), the loop exits without consuming the second transaction — the
published attributes remain the initial ones, although applying the second
transaction alone would have changed them. -/
theorem watch_loop_error_counterexample :
    SDPSubarray.set_attributes_watch "01" false attrsInit
      [emptyStore, storeOnEmpty] = attrsInit ∧
    SDPSubarray.do_transaction attrsInit emptyStore "01" =
      .error .attributeError ∧
    SDPSubarray.do_transaction attrsInit storeOnEmpty "01" =
      .ok ({ devState := some DevState.ON, receiveAddresses := JVal.null,
             scanType := JVal.str "null", scanId := JVal.num 0,
             obsState := some ObsState.EMPTY },
           [LoopEvent.publish "State", LoopEvent.publish "obsState",
            LoopEvent.notifyAll]) := by
  decide

/-- C2 (amended): an exception raised while applying one watch
transaction's changes is caught (the loop function returns normally, with
the attributes applied so far) but the watcher loop terminates: the
remaining watch transactions are not consumed. -/
theorem watch_loop_error_exits (a : SubAttrs) (sid : String) (s : Store)
    (rest : List Store) (e : DevError)
    (h : SDPSubarray.do_transaction a s sid = .error e) :
    SDPSubarray.set_attributes_watch sid false a (s :: rest) = a := by
  simp [SDPSubarray.set_attributes_watch, h]

/-- Witness for C2's amended theorem: concrete failing head transaction
and a non-empty tail. -/
theorem watch_loop_error_exits_witness :
    SDPSubarray.set_attributes_watch "01" false attrsInit
      [emptyStore, storeOnEmpty] = attrsInit :=
  watch_loop_error_exits attrsInit "01" emptyStore [storeOnEmpty]
    DevError.attributeError (by decide)

/-! ## Claim C6: the update-queue flush after command execution -/

/-- C6 (code bug): the `command_transaction` wrapper calls
`self.flush_event_queue()` after the command body, but no device class of
the repository defines a method of that name — base.py defines
`flush_update_queue` — so every command raises `AttributeError` after its
body instead of flushing the update queue and returning. -/
theorem flush_event_queue_undefined :
    command_transaction_wrapper deviceMethodTable
      (SDPMaster.invoke storeMaster DevState.STANDBY MasterCommand.On
        "txn-1") = .error .attributeError ∧
    "flush_update_queue" ∈ deviceMethodTable ∧
    "flush_event_queue" ∉ deviceMethodTable := by
  refine ⟨rfl, by decide, by decide⟩

/-! ## Claim C5: command bodies stamp transaction id and last_command -/

/-- C5 counterexample to the claim as stated: the master `On` body stamps
the transaction id and writes the new state, but stores no `last_command`
— the master entry has no such field at all after the command. -/
theorem master_body_no_last_command :
    masterObs (SDPMaster.invoke storeMaster DevState.STANDBY
      MasterCommand.On "txn-1") "last_command" = .ok none ∧
    masterObs (SDPMaster.invoke storeMaster DevState.STANDBY
      MasterCommand.On "txn-1") "transaction_id" =
      .ok (some (JVal.str "txn-1")) ∧
    masterObs (SDPMaster.invoke storeMaster DevState.STANDBY
      MasterCommand.On "txn-1") "state" = .ok (some (JVal.str "ON")) := by
  decide

/-! ## Claim C9: unrecognized stored enum names read back as null -/

/-- C9: writing a string that the read field's own enum does not recognize
into the subarray `state` or `obs_state_target` field, or the master
`state` field, and reading it back through the typed view yields null; the
read is a total function and does not raise. -/
theorem invalid_enum_reads_none (s : Store) (sid v : String) (r m : Record)
    (hr : Txn.get_subarray s sid = some r) (hm : s.master = some m) :
    (DevState.ofName v = none →
      (do let s1 ← SubarrayState.sset s sid "state" (JVal.str v)
          SubarrayState.state s1 sid) = .ok none) ∧
    (ObsState.ofName v = none →
      (do let s2 ← SubarrayState.sset s sid "obs_state_target"
            (JVal.str v)
          SubarrayState.obs_state_target s2 sid) = .ok none) ∧
    (DevState.ofName v = none →
      (do let s3 ← MasterState.mset s "state" (JVal.str v)
          pure (MasterState.state s3)) = .ok none) := by
  refine ⟨fun hd => ?_, fun ho => ?_, fun hd => ?_⟩
  · rw [sset_of_get hr]
    simp only [bind_ok_left]
    have hg := sget_of_get (get_subarray_update_self s sid
      (recSet r "state" (JVal.str v))) "state"
    rw [pyget_recSet_self] at hg
    simp [SubarrayState.state, hg, hd]
  · rw [sset_of_get hr]
    simp only [bind_ok_left]
    have hg := sget_of_get (get_subarray_update_self s sid
      (recSet r "obs_state_target" (JVal.str v))) "obs_state_target"
    rw [pyget_recSet_self] at hg
    simp [SubarrayState.obs_state_target, hg, ho]
  · have hmset : MasterState.mset s "state" (JVal.str v) =
        .ok (Txn.update_master s (recSet m "state" (JVal.str v))) := by
      simp [MasterState.mset, Txn.get_master, hm]
    rw [hmset]
    simp only [bind_ok_left]
    simp [MasterState.state, MasterState.mget, Txn.get_master,
          Txn.update_master, pyget_recSet_self, hd]

/-- Witness for C9 at the initial subarray and master entries, including
the cross-enum cases: `"EMPTY"` is a valid ObsState name but not a
DevState name, and `"MOVING"` a valid DevState name but not an ObsState
name. -/
theorem invalid_enum_reads_none_witness :
    (do let s1 ← SubarrayState.sset storeBoth "01" "state"
          (JVal.str "EMPTY")
        SubarrayState.state s1 "01") = .ok none ∧
    (do let s2 ← SubarrayState.sset storeBoth "01" "obs_state_target"
          (JVal.str "MOVING")
        SubarrayState.obs_state_target s2 "01") = .ok none ∧
    (do let s3 ← MasterState.mset storeBoth "state" (JVal.str "invalid")
        pure (MasterState.state s3)) = .ok none :=
  ⟨(invalid_enum_reads_none storeBoth "01" "EMPTY" subRecInit
      masterRecInit (by decide) (by decide)).1 (by decide),
   (invalid_enum_reads_none storeBoth "01" "MOVING" subRecInit
      masterRecInit (by decide) (by decide)).2.1 (by decide),
   (invalid_enum_reads_none storeBoth "01" "invalid" subRecInit
      masterRecInit (by decide) (by decide)).2.2 (by decide)⟩

/-! ## Claim C10: reads on absent records -/

/-- C10: when the master entry is absent every typed master read returns
null, whereas when the subarray entry is absent the typed subarray reads
(`state`, `command`, `transaction_id`, `obs_state_target`, the `sbi_id`
item) fail with `AttributeError` rather than returning null. -/
theorem typed_reads_absent_records (s : Store) (sid : String)
    (hm : s.master = none) (hs : Txn.get_subarray s sid = none) :
    MasterState.state s = none ∧
    MasterState.transaction_id s = JVal.null ∧
    SubarrayState.state s sid = .error .attributeError ∧
    SubarrayState.command s sid = .error .attributeError ∧
    SubarrayState.transaction_id s sid = .error .attributeError ∧
    SubarrayState.obs_state_target s sid = .error .attributeError ∧
    SubarrayState.sget s sid "sbi_id" = .error .attributeError := by
  have hg : SubarrayState.sget s sid "state" = .error .attributeError ∧
      SubarrayState.sget s sid "last_command" = .error .attributeError ∧
      SubarrayState.sget s sid "transaction_id" = .error .attributeError ∧
      SubarrayState.sget s sid "obs_state_target" =
        .error .attributeError ∧
      SubarrayState.sget s sid "sbi_id" = .error .attributeError := by
    refine ⟨?_, ?_, ?_, ?_, ?_⟩ <;> simp [SubarrayState.sget, hs]
  refine ⟨?_, ?_, ?_, ?_, ?_, ?_, hg.2.2.2.2⟩
  · simp [MasterState.state, MasterState.mget, Txn.get_master, hm]
  · simp [MasterState.transaction_id, MasterState.mget, Txn.get_master, hm]
  · simp [SubarrayState.state, hg.1]
  · exact hg.2.1
  · exact hg.2.2.1
  · simp [SubarrayState.obs_state_target, hg.2.2.2.1]

/-- Witness for C10 at the empty store. -/
theorem typed_reads_absent_records_witness :
    MasterState.state emptyStore = none ∧
    SubarrayState.state emptyStore "01" = .error .attributeError :=
  ⟨(typed_reads_absent_records emptyStore "01" (by decide) (by decide)).1,
   (typed_reads_absent_records emptyStore "01" (by decide)
      (by decide)).2.2.1⟩

/-! ## Claim C3: guard completeness -/

/-- C3: for every master command invoked in a device state outside its
allow-list, and for every subarray command invoked in a device state /
obsState combination outside its allow-list, the call raises
`CommandNotAllowed` naming the command, the checked attribute and its
offending value, and the configuration store is not mutated (the guard
runs before the transactional body). -/
theorem guard_completeness :
    (∀ (s : Store) (d : DevState) (c : MasterCommand) (txnId : String),
       d ∉ c.allowedStates →
       SDPMaster.invoke s d c txnId =
         .error (.commandNotAllowed c.cmdName "device state" d.devName) ∧
       SDPMaster.invokeStore s d c txnId = s) ∧
    (∀ (s : Store) (sid : String) (d : DevState) (o : Option ObsState)
       (c : SubarrayCommand) (txnId : String) (arg : SubarrayArg),
       ¬ c.comboAllowed d o = true →
       SDPSubarray.invoke s sid d o c txnId arg =
         .error (.commandNotAllowed c.cmdName
           (if d ∈ c.allowedStates then "obsState" else "device state")
           (if d ∈ c.allowedStates then renderObsStateOpt o
            else d.devName)) ∧
       SDPSubarray.invokeStore s sid d o c txnId arg = s) := by
  constructor
  · intro s d c txnId hd
    have hinv : SDPMaster.invoke s d c txnId =
        .error (.commandNotAllowed c.cmdName "device state" d.devName) := by
      unfold SDPMaster.invoke SDPMaster.is_allowed command_allowed
      rw [if_neg hd]
      simp
    refine ⟨hinv, ?_⟩
    unfold SDPMaster.invokeStore
    rw [hinv]
  · intro s sid d o c txnId arg hcombo
    by_cases hd : d ∈ c.allowedStates
    · have hobs : ∃ l, c.allowedObsStates = some l ∧ o ∉ l.map some := by
        cases hobsl : c.allowedObsStates with
        | none =>
            exfalso
            apply hcombo
            unfold SubarrayCommand.comboAllowed
            rw [hobsl]
            simp [hd]
        | some l =>
            refine ⟨l, rfl, ?_⟩
            intro hmem
            apply hcombo
            unfold SubarrayCommand.comboAllowed
            rw [hobsl]
            simp [hd, hmem]
      obtain ⟨l, hobsl, ho⟩ := hobs
      have hinv : SDPSubarray.invoke s sid d o c txnId arg =
          .error (.commandNotAllowed c.cmdName "obsState"
            (renderObsStateOpt o)) := by
        unfold SDPSubarray.invoke SDPSubarray.is_allowed command_allowed
        rw [if_pos hd]
        simp only [bind_ok_left, hobsl]
        rw [if_neg ho]
        simp
      rw [if_pos hd, if_pos hd]
      refine ⟨hinv, ?_⟩
      unfold SDPSubarray.invokeStore
      rw [hinv]
    · have hinv : SDPSubarray.invoke s sid d o c txnId arg =
          .error (.commandNotAllowed c.cmdName "device state"
            d.devName) := by
        unfold SDPSubarray.invoke SDPSubarray.is_allowed command_allowed
        rw [if_neg hd]
        simp
      rw [if_neg hd, if_neg hd]
      refine ⟨hinv, ?_⟩
      unfold SDPSubarray.invokeStore
      rw [hinv]

/-- Witness for C3: `On` called with the master in `ON` (not in its
allow-list), and the subarray `On` called with the device in `ON` and
obsState `IDLE` (state not in its allow-list). -/
theorem guard_completeness_witness :
    SDPMaster.invoke emptyStore DevState.ON MasterCommand.On "txn-1" =
      .error (.commandNotAllowed MasterCommand.On.cmdName "device state"
        DevState.ON.devName) ∧
    SDPSubarray.invoke emptyStore "01" DevState.ON (some ObsState.IDLE)
      SubarrayCommand.On "txn-1" SubarrayArg.noArg =
      .error (.commandNotAllowed SubarrayCommand.On.cmdName
        (if DevState.ON ∈ SubarrayCommand.On.allowedStates then "obsState"
         else "device state")
        (if DevState.ON ∈ SubarrayCommand.On.allowedStates then
           renderObsStateOpt (some ObsState.IDLE)
         else DevState.ON.devName)) :=
  ⟨(guard_completeness.1 emptyStore DevState.ON MasterCommand.On "txn-1"
      (by decide)).1,
   (guard_completeness.2 emptyStore "01" DevState.ON (some ObsState.IDLE)
      SubarrayCommand.On "txn-1" SubarrayArg.noArg (by decide)).1⟩

/-! ## Claim C7: publications precede the broadcast signal -/

theorem mem_pushIfChanged {α : Type} [DecidableEq α] {attrName : String}
    {old new : α} {evs : List LoopEvent} {e : LoopEvent}
    (h : e ∈ pushIfChanged attrName old new evs) :
    e ∈ evs ∨ e = LoopEvent.publish attrName := by
  unfold pushIfChanged at h
  by_cases hne : old ≠ new
  · rw [if_pos hne] at h
    rcases List.mem_append.mp h with h | h
    · exact Or.inl h
    · simp only [List.mem_singleton] at h
      exact Or.inr h
  · rw [if_neg hne] at h
    exact Or.inl h

theorem set_from_config_events_publish (a : SubAttrs) (s : Store)
    (sid : String) (a' : SubAttrs) (evs : List LoopEvent)
    (h : SDPSubarray.set_from_config a s sid = .ok (a', evs)) :
    ∀ e ∈ evs, e.isPublish := by
  unfold SDPSubarray.set_from_config at h
  obtain ⟨v1, h1, h⟩ := except_bind_ok h
  obtain ⟨v2, h2, h⟩ := except_bind_ok h
  obtain ⟨v3, h3, h⟩ := except_bind_ok h
  obtain ⟨v4, h4, h⟩ := except_bind_ok h
  obtain ⟨v5, h5, h⟩ := except_bind_ok h
  obtain ⟨v6, h6, h⟩ := except_bind_ok h
  simp only [pure_eq_ok, Except.ok.injEq, Prod.mk.injEq] at h
  intro e he
  rw [← h.2] at he
  rcases mem_pushIfChanged he with he | he
  · rcases mem_pushIfChanged he with he | he
    · rcases mem_pushIfChanged he with he | he
      · rcases mem_pushIfChanged he with he | he
        · rcases mem_pushIfChanged he with he | he
          · exact absurd he (List.not_mem_nil e)
          · rw [he]; trivial
        · rw [he]; trivial
      · rw [he]; trivial
    · rw [he]; trivial
  · rw [he]; trivial

/-- C7: within one reconciliation pass over one watch transaction, every
pushed event before the condition signal is an attribute change
publication, the signal comes last, and it is the broadcast
`notify_all`. -/
theorem publish_before_notify (a : SubAttrs) (s : Store) (sid : String)
    (a' : SubAttrs) (evs : List LoopEvent)
    (h : SDPSubarray.do_transaction a s sid = .ok (a', evs)) :
    ∃ ps, evs = ps ++ [LoopEvent.notifyAll] ∧ ∀ e ∈ ps, e.isPublish := by
  unfold SDPSubarray.do_transaction at h
  obtain ⟨⟨a1, ps⟩, h1, h2⟩ := except_bind_ok h
  simp only [pure_eq_ok, Except.ok.injEq, Prod.mk.injEq] at h2
  exact ⟨ps, h2.2.symm,
    set_from_config_events_publish a s sid a1 ps h1⟩

/-- Witness for C7 at a concrete transaction that changes two
attributes. -/
theorem publish_before_notify_witness :
    ∃ ps, [LoopEvent.publish "State", LoopEvent.publish "obsState",
           LoopEvent.notifyAll] = ps ++ [LoopEvent.notifyAll] ∧
          ∀ e ∈ ps, e.isPublish :=
  publish_before_notify attrsInit storeOnEmpty "01"
    { devState := some DevState.ON, receiveAddresses := JVal.null,
      scanType := JVal.str "null", scanId := JVal.num 0,
      obsState := some ObsState.EMPTY }
    [LoopEvent.publish "State", LoopEvent.publish "obsState",
     LoopEvent.notifyAll] (by decide)

/-! ## Claim C8: scan-type validation -/

/-- C8: setting the current scan type to a non-null value absent from the
id set of the linked SBI's scan types raises `CommandFailed`; setting it
with no linked SBI is a no-op — no error and an unchanged store. -/
theorem scan_type_validation (s : Store) (sid : String) (r : Record)
    (hr : Txn.get_subarray s sid = some r) :
    (∀ (i : String) (sbi : Record) (l ids : List JVal) (v : JVal),
       pyget r "sbi_id" = JVal.str i →
       Txn.get_scheduling_block s i = some sbi →
       pyget sbi "scan_types" = JVal.arr l →
       SubarrayState.scanTypeIds l = .ok ids →
       v ≠ JVal.null → v ∉ ids →
       SubarrayState.set_scan_type s sid v =
         .error (.commandFailed
           ("Scan type " ++ jvalText v ++ " is not defined"))) ∧
    (∀ v : JVal, pyget r "sbi_id" = JVal.null →
       SubarrayState.set_scan_type s sid v = .ok s) := by
  constructor
  · intro i sbi l ids v hid hsbi hst hids hv hnot
    unfold SubarrayState.set_scan_type
    rw [sget_of_get hr, hid]
    simp only [bind_ok_left]
    have hcond : (JVal.str i ≠ JVal.null ∧ v ≠ JVal.null) := ⟨by simp, hv⟩
    rw [if_pos hcond]
    have hgs : SubarrayState.get_sbi s sid "scan_types" =
        .ok (JVal.arr l) := by
      unfold SubarrayState.get_sbi
      rw [sget_of_get hr, hid]
      simp only [bind_ok_left, hsbi, hst, pure_eq_ok]
    rw [hgs]
    simp only [bind_ok_left, hids]
    rw [if_neg hnot]
  · intro v hnull
    unfold SubarrayState.set_scan_type
    rw [sget_of_get hr, hnull]
    simp only [bind_ok_left]
    have hcond : ¬ (JVal.null ≠ JVal.null ∧ v ≠ JVal.null) := by simp
    rw [if_neg hcond]
    exact set_sbi_of_unlinked hr hnull "current_scan_type" v

/-- Witness for C8: an undefined scan type on the linked store raises
`CommandFailed`; a set with no linked SBI leaves the initial store
untouched. -/
theorem scan_type_validation_witness :
    SubarrayState.set_scan_type storeResourcing "01" (JVal.str "bad") =
      .error (.commandFailed
        ("Scan type " ++ jvalText (JVal.str "bad") ++ " is not defined")) ∧
    SubarrayState.set_scan_type storeSubInit "01" (JVal.str "science_A") =
      .ok storeSubInit :=
  ⟨(scan_type_validation storeResourcing "01" subRecAssigned (by decide)).1
      "sbi-001" sbiRec1 [JVal.obj [("id", JVal.str "science_A")]]
      [JVal.str "science_A"] (JVal.str "bad") (by decide) (by decide)
      (by decide) (by decide) (by decide) (by decide),
   (scan_type_validation storeSubInit "01" subRecInit (by decide)).2
      (JVal.str "science_A") (by decide)⟩

/-! ## Helper lemmas for SBI creation and release -/

theorem set_sbi_step {s : Store} {sid : String} {r : Record} {i : String}
    {sbi : Record}
    (hr : Txn.get_subarray s sid = some r)
    (hid : pyget r "sbi_id" = JVal.str i)
    (hsbi : Txn.get_scheduling_block s i = some sbi)
    (name : String) (v : JVal) :
    SubarrayState.set_sbi s sid name v =
      .ok (Txn.update_scheduling_block s i (recSet sbi name v)) ∧
    Txn.get_subarray
      (Txn.update_scheduling_block s i (recSet sbi name v)) sid = some r ∧
    Txn.get_scheduling_block
      (Txn.update_scheduling_block s i (recSet sbi name v)) i =
      some (recSet sbi name v) :=
  ⟨set_sbi_of_linked hr hid hsbi name v, hr,
   by simp [Txn.get_scheduling_block, Txn.update_scheduling_block]⟩

theorem set_scan_type_null_of_linked {s : Store} {sid : String}
    {r : Record} {i : String}
    (hr : Txn.get_subarray s sid = some r)
    (hid : pyget r "sbi_id" = JVal.str i) :
    SubarrayState.set_scan_type s sid JVal.null =
      SubarrayState.set_sbi s sid "current_scan_type" JVal.null := by
  unfold SubarrayState.set_scan_type
  rw [sget_of_get hr, hid]
  simp only [bind_ok_left]
  rw [if_neg (by simp)]

theorem set_scan_type_subarrays_eq {s : Store} {sid : String} {v : JVal}
    {s' : Store} (h : SubarrayState.set_scan_type s sid v = .ok s') :
    s'.subarrays = s.subarrays := by
  unfold SubarrayState.set_scan_type at h
  obtain ⟨b, hb, h⟩ := except_bind_ok h
  by_cases hcond : b ≠ JVal.null ∧ v ≠ JVal.null
  · rw [if_pos hcond] at h
    obtain ⟨sts, hsts, h⟩ := except_bind_ok h
    cases sts with
    | arr l =>
        obtain ⟨ids, hds, h⟩ := except_bind_ok h
        by_cases hmem : v ∈ ids
        · rw [if_pos hmem] at h
          exact set_sbi_subarrays_eq h
        · rw [if_neg hmem] at h
          exact absurd h (by simp)
    | null => exact absurd h (by simp)
    | str t => exact absurd h (by simp)
    | num n => exact absurd h (by simp)
    | obj l => exact absurd h (by simp)
  · rw [if_neg hcond] at h
    exact set_sbi_subarrays_eq h

theorem add_scan_types_subarrays_eq {s : Store} {sid : String}
    {new : Option (List JVal)} {s' : Store}
    (h : SubarrayState.add_scan_types s sid new = .ok s') :
    s'.subarrays = s.subarrays := by
  unfold SubarrayState.add_scan_types at h
  cases new with
  | none =>
      rw [← Except.ok.inj h]
  | some nsts =>
      obtain ⟨sts, hsts, h⟩ := except_bind_ok h
      cases sts with
      | arr l =>
          obtain ⟨ids, hds, h⟩ := except_bind_ok h
          obtain ⟨sts2, hsts2, h⟩ := except_bind_ok h
          exact set_sbi_subarrays_eq h
      | null => exact absurd h (by simp)
      | str t => exact absurd h (by simp)
      | num n => exact absurd h (by simp)
      | obj l => exact absurd h (by simp)

theorem create_pbs_subarrays_eq :
    ∀ {pbs : List (String × Record)} {s s' : Store},
    SubarrayState.create_pbs s pbs = .ok s' → s'.subarrays = s.subarrays
  | [], s, s', h => by
      unfold SubarrayState.create_pbs at h
      rw [← Except.ok.inj h]
  | (i, r) :: rest, s, s', h => by
      unfold SubarrayState.create_pbs at h
      cases hpb : Txn.get_processing_block s i with
      | some q => rw [hpb] at h; exact absurd h (by simp)
      | none =>
          rw [hpb] at h
          rw [create_pbs_subarrays_eq h]
          rfl

theorem create_pbs_scheduling_blocks_eq :
    ∀ {pbs : List (String × Record)} {s s' : Store},
    SubarrayState.create_pbs s pbs = .ok s' →
    s'.scheduling_blocks = s.scheduling_blocks
  | [], s, s', h => by
      unfold SubarrayState.create_pbs at h
      rw [← Except.ok.inj h]
  | (i, r) :: rest, s, s', h => by
      unfold SubarrayState.create_pbs at h
      cases hpb : Txn.get_processing_block s i with
      | some q => rw [hpb] at h; exact absurd h (by simp)
      | none =>
          rw [hpb] at h
          rw [create_pbs_scheduling_blocks_eq h]
          rfl

theorem create_pbs_ok :
    ∀ {pbs : List (String × Record)} {s : Store},
    (∀ p ∈ pbs.map Prod.fst, Txn.get_processing_block s p = none) →
    (pbs.map Prod.fst).Nodup →
    ∃ s', SubarrayState.create_pbs s pbs = .ok s'
  | [], s, _, _ => ⟨s, rfl⟩
  | (i, r) :: rest, s, hf, hn => by
      have hfi : Txn.get_processing_block s i = none := hf i (by simp)
      have hni : i ∉ rest.map Prod.fst ∧ (rest.map Prod.fst).Nodup :=
        List.nodup_cons.mp (by simpa using hn)
      have hf' : ∀ p ∈ rest.map Prod.fst,
          Txn.get_processing_block (Txn.create_processing_block s i r) p =
            none := by
        intro p hp
        have hne : p ≠ i := fun he => hni.1 (he ▸ hp)
        have hpn := hf p (by simp [hp])
        simpa [Txn.get_processing_block, Txn.create_processing_block,
               updMap, hne] using hpn
      obtain ⟨s', h⟩ := create_pbs_ok hf' hni.2
      refine ⟨s', ?_⟩
      unfold SubarrayState.create_pbs
      rw [hfi]
      exact h

theorem end_sbi_sget_ne {s : Store} {sid status : String} {s' : Store}
    (h : SubarrayState.end_sbi s sid status = .ok s') {k : String}
    (hk : k ≠ "sbi_id") :
    SubarrayState.sget s' sid k = SubarrayState.sget s sid k := by
  unfold SubarrayState.end_sbi at h
  obtain ⟨s1, h1, h⟩ := except_bind_ok h
  obtain ⟨s2, h2, h⟩ := except_bind_ok h
  obtain ⟨s3, h3, h⟩ := except_bind_ok h
  obtain ⟨s4, h4, h⟩ := except_bind_ok h
  unfold SubarrayState.set_scan_id at h4
  have e1 := set_sbi_subarrays_eq h1
  have e2 := set_sbi_subarrays_eq h2
  have e3 := set_scan_type_subarrays_eq h3
  have e4 := set_sbi_subarrays_eq h4
  calc SubarrayState.sget s' sid k
      = SubarrayState.sget s4 sid k := sset_ok_sget_ne h hk
    _ = SubarrayState.sget s sid k := by
        exact sget_preserved_of_subarrays_eq
          (e4.trans (e3.trans (e2.trans e1))) sid k

theorem create_sbi_and_pbs_sget_ne {s : Store} {sid : String}
    {sbi : Record} {pbs : List (String × Record)} {s' : Store}
    (h : SubarrayState.create_sbi_and_pbs s sid sbi pbs = .ok s')
    {k : String} (hk : k ≠ "sbi_id") :
    SubarrayState.sget s' sid k = SubarrayState.sget s sid k := by
  unfold SubarrayState.create_sbi_and_pbs at h
  obtain ⟨s1, h1, h⟩ := except_bind_ok h
  cases hidv : pyget sbi "id" with
  | str i =>
      simp only [hidv] at h
      cases hsb : Txn.get_scheduling_block s1 i with
      | some q =>
          simp only [hsb] at h
          exact absurd h (by simp)
      | none =>
          simp only [hsb] at h
          obtain ⟨s2, h2, h⟩ := except_bind_ok h
          have e1 := sset_ok_sget_ne h1 hk
          have e2 := set_sbi_subarrays_eq h2
          have e3 := create_pbs_subarrays_eq h
          calc SubarrayState.sget s' sid k
              = SubarrayState.sget s2 sid k :=
                sget_preserved_of_subarrays_eq e3 sid k
            _ = SubarrayState.sget s1 sid k :=
                sget_preserved_of_subarrays_eq e2 sid k
            _ = SubarrayState.sget s sid k := e1
  | null =>
      simp only [hidv] at h
      exact absurd h (by simp)
  | num n =>
      simp only [hidv] at h
      exact absurd h (by simp)
  | arr l =>
      simp only [hidv] at h
      exact absurd h (by simp)
  | obj l =>
      simp only [hidv] at h
      exact absurd h (by simp)

theorem get_scheduling_block_update_subarray (s : Store) (sid : String)
    (r : Record) (i : String) :
    Txn.get_scheduling_block (Txn.update_subarray s sid r) i =
      Txn.get_scheduling_block s i := rfl

theorem pyget_endRec (sbi : Record) (status : String) :
    pyget (recSet (recSet (recSet (recSet sbi "subarray_id" JVal.null)
        "status" (JVal.str status)) "current_scan_type" JVal.null)
        "scan_id" JVal.null) "subarray_id" = JVal.null ∧
    pyget (recSet (recSet (recSet (recSet sbi "subarray_id" JVal.null)
        "status" (JVal.str status)) "current_scan_type" JVal.null)
        "scan_id" JVal.null) "status" = JVal.str status ∧
    pyget (recSet (recSet (recSet (recSet sbi "subarray_id" JVal.null)
        "status" (JVal.str status)) "current_scan_type" JVal.null)
        "scan_id" JVal.null) "current_scan_type" = JVal.null ∧
    pyget (recSet (recSet (recSet (recSet sbi "subarray_id" JVal.null)
        "status" (JVal.str status)) "current_scan_type" JVal.null)
        "scan_id" JVal.null) "scan_id" = JVal.null := by
  refine ⟨?_, ?_, ?_, ?_⟩
  · rw [pyget_recSet_ne _ _ _ _ (by decide),
        pyget_recSet_ne _ _ _ _ (by decide),
        pyget_recSet_ne _ _ _ _ (by decide), pyget_recSet_self]
  · rw [pyget_recSet_ne _ _ _ _ (by decide),
        pyget_recSet_ne _ _ _ _ (by decide), pyget_recSet_self]
  · rw [pyget_recSet_ne _ _ _ _ (by decide), pyget_recSet_self]
  · rw [pyget_recSet_self]

theorem end_sbi_run_obs (s : Store) (sid : String) (r : Record)
    (i : String) (sbi : Record) (status : String)
    (hr : Txn.get_subarray s sid = some r)
    (hid : pyget r "sbi_id" = JVal.str i)
    (hsbi : Txn.get_scheduling_block s i = some sbi) :
    (SubarrayState.end_sbi s sid status >>= fun q =>
       pure (SubarrayState.sget q sid "sbi_id",
             (Txn.get_scheduling_block q i).map
               (fun b => (pyget b "subarray_id", pyget b "status",
                          pyget b "current_scan_type",
                          pyget b "scan_id")))) =
      .ok (.ok JVal.null,
           some (JVal.null, JVal.str status, JVal.null, JVal.null)) := by
  obtain ⟨h1, hr1, hsbi1⟩ := set_sbi_step hr hid hsbi "subarray_id"
    JVal.null
  obtain ⟨h2, hr2, hsbi2⟩ := set_sbi_step hr1 hid hsbi1 "status"
    (JVal.str status)
  obtain ⟨h3, hr3, hsbi3⟩ := set_sbi_step hr2 hid hsbi2 "current_scan_type"
    JVal.null
  obtain ⟨h4, hr4, hsbi4⟩ := set_sbi_step hr3 hid hsbi3 "scan_id" JVal.null
  obtain ⟨p1, p2, p3, p4⟩ := pyget_endRec sbi status
  unfold SubarrayState.end_sbi
  rw [h1]
  simp only [bind_ok_left]
  rw [h2]
  simp only [bind_ok_left]
  rw [set_scan_type_null_of_linked hr2 hid, h3]
  simp only [bind_ok_left]
  unfold SubarrayState.set_scan_id
  rw [h4]
  simp only [bind_ok_left]
  rw [sset_of_get hr4]
  simp only [bind_ok_left, pure_eq_ok]
  rw [sget_of_get (get_subarray_update_self _ sid _) "sbi_id",
      pyget_recSet_self, get_scheduling_block_update_subarray, hsbi4]
  simp only [Option.map_some']
  rw [p1, p2, p3, p4]

/-! ## Claim C4: SBI link integrity -/

/-- C4: after `create_sbi_and_pbs` with fresh SBI and PB ids, the
subarray\'s `sbi_id` equals the SBI\'s id and the SBI\'s `subarray_id`
equals the subarray\'s id; after `finish_sbi` (resp. `cancel_sbi`) the
subarray\'s `sbi_id` is null, the SBI\'s `subarray_id` is null, its
status is `FINISHED` (resp. `CANCELLED`), and its `current_scan_type` and
`scan_id` are null.  Each postcondition is phrased as running the
operation and reading the fields back in the resulting store. -/
theorem link_integrity (s : Store) (sid : String) (r : Record)
    (hr : Txn.get_subarray s sid = some r) :
    (∀ (sbi : Record) (pbs : List (String × Record)) (i : String),
       pyget sbi "id" = JVal.str i →
       Txn.get_scheduling_block s i = none →
       (∀ p ∈ pbs.map Prod.fst, Txn.get_processing_block s p = none) →
       (pbs.map Prod.fst).Nodup →
       (SubarrayState.create_sbi_and_pbs s sid sbi pbs >>= fun q =>
          pure (SubarrayState.sget q sid "sbi_id",
                (Txn.get_scheduling_block q i).map
                  (fun b => (pyget b "id", pyget b "subarray_id")))) =
         .ok (.ok (JVal.str i), some (JVal.str i, JVal.str sid))) ∧
    (∀ (i : String) (sbi : Record),
       pyget r "sbi_id" = JVal.str i →
       Txn.get_scheduling_block s i = some sbi →
       (SubarrayState.finish_sbi s sid >>= fun q =>
          pure (SubarrayState.sget q sid "sbi_id",
                (Txn.get_scheduling_block q i).map
                  (fun b => (pyget b "subarray_id", pyget b "status",
                             pyget b "current_scan_type",
                             pyget b "scan_id")))) =
         .ok (.ok JVal.null,
              some (JVal.null, JVal.str "FINISHED", JVal.null,
                    JVal.null)) ∧
       (SubarrayState.cancel_sbi s sid >>= fun q =>
          pure (SubarrayState.sget q sid "sbi_id",
                (Txn.get_scheduling_block q i).map
                  (fun b => (pyget b "subarray_id", pyget b "status",
                             pyget b "current_scan_type",
                             pyget b "scan_id")))) =
         .ok (.ok JVal.null,
              some (JVal.null, JVal.str "CANCELLED", JVal.null,
                    JVal.null))) := by
  constructor
  · intro sbi pbs i hidv hfresh hpf hnd
    have h1 : SubarrayState.sset s sid "sbi_id" (JVal.str i) =
        .ok (Txn.update_subarray s sid (recSet r "sbi_id" (JVal.str i))) :=
      sset_of_get hr "sbi_id" (JVal.str i)
    have hfresh1 : Txn.get_scheduling_block
        (Txn.update_subarray s sid (recSet r "sbi_id" (JVal.str i))) i =
        none := hfresh
    have hr2 : Txn.get_subarray
        (Txn.create_scheduling_block
          (Txn.update_subarray s sid (recSet r "sbi_id" (JVal.str i)))
          i sbi) sid = some (recSet r "sbi_id" (JVal.str i)) :=
      get_subarray_update_self s sid _
    have hid2 : pyget (recSet r "sbi_id" (JVal.str i)) "sbi_id" =
        JVal.str i := pyget_recSet_self r "sbi_id" (JVal.str i)
    have hsbi2 : Txn.get_scheduling_block
        (Txn.create_scheduling_block
          (Txn.update_subarray s sid (recSet r "sbi_id" (JVal.str i)))
          i sbi) i = some sbi := by
      simp [Txn.get_scheduling_block, Txn.create_scheduling_block]
    obtain ⟨h3, hr3, hsbi3⟩ := set_sbi_step hr2 hid2 hsbi2 "subarray_id"
      (JVal.str sid)
    have hpf3 : ∀ p ∈ pbs.map Prod.fst,
        Txn.get_processing_block
          (Txn.update_scheduling_block
            (Txn.create_scheduling_block
              (Txn.update_subarray s sid (recSet r "sbi_id" (JVal.str i)))
              i sbi) i (recSet sbi "subarray_id" (JVal.str sid))) p =
          none := hpf
    obtain ⟨s4, h4⟩ := create_pbs_ok hpf3 hnd
    have hs4sub : SubarrayState.sget s4 sid "sbi_id" =
        .ok (JVal.str i) := by
      rw [sget_preserved_of_subarrays_eq (create_pbs_subarrays_eq h4)
            sid "sbi_id", sget_of_get hr3 "sbi_id", hid2]
    have hs4sched : Txn.get_scheduling_block s4 i =
        some (recSet sbi "subarray_id" (JVal.str sid)) := by
      unfold Txn.get_scheduling_block at hsbi3 ⊢
      rw [create_pbs_scheduling_blocks_eq h4]
      exact hsbi3
    unfold SubarrayState.create_sbi_and_pbs
    simp only [hidv]
    rw [h1]
    simp only [bind_ok_left, hfresh1]
    rw [h3]
    simp only [bind_ok_left]
    rw [h4]
    simp only [bind_ok_left, pure_eq_ok]
    rw [hs4sub, hs4sched]
    simp only [Option.map_some']
    rw [pyget_recSet_ne _ _ _ _ (by decide), hidv, pyget_recSet_self]
  · intro i sbi hid hsbi
    constructor
    · have h := end_sbi_run_obs s sid r i sbi "FINISHED" hr hid hsbi
      unfold SubarrayState.finish_sbi
      exact h
    · have h := end_sbi_run_obs s sid r i sbi "CANCELLED" hr hid hsbi
      unfold SubarrayState.cancel_sbi
      exact h

/-- Witness for C4: a fresh SBI/PB creation on the initial subarray store,
and a finish on the linked post-AssignResources store. -/
theorem link_integrity_witness :
    (SubarrayState.create_sbi_and_pbs storeSubInit "01" sbiRecNew pbsNew
       >>= fun q =>
         pure (SubarrayState.sget q "01" "sbi_id",
               (Txn.get_scheduling_block q "sbi-002").map
                 (fun b => (pyget b "id", pyget b "subarray_id")))) =
      .ok (.ok (JVal.str "sbi-002"),
           some (JVal.str "sbi-002", JVal.str "01")) ∧
    (SubarrayState.finish_sbi storeResourcing "01" >>= fun q =>
       pure (SubarrayState.sget q "01" "sbi_id",
             (Txn.get_scheduling_block q "sbi-001").map
               (fun b => (pyget b "subarray_id", pyget b "status",
                          pyget b "current_scan_type",
                          pyget b "scan_id")))) =
      .ok (.ok JVal.null,
           some (JVal.null, JVal.str "FINISHED", JVal.null, JVal.null)) :=
  ⟨(link_integrity storeSubInit "01" subRecInit (by decide)).1 sbiRecNew
      pbsNew "sbi-002" (by decide) (by decide) (by decide) (by decide),
   ((link_integrity storeResourcing "01" subRecAssigned (by decide)).2
      "sbi-001" sbiRec1 (by decide) (by decide)).1⟩

/-! ## Claim C5: stamping of transaction id and last_command -/

theorem DevState.ofName_devName (d : DevState) :
    DevState.ofName d.devName = some d := by
  cases d <;> rfl

theorem stamps_of_prefix {s s1 s2 sf : Store} {sid cn txnId : String}
    (h1 : SubarrayState.set_command s sid (JVal.str cn) = .ok s1)
    (h2 : SubarrayState.set_transaction_id s1 sid (JVal.str txnId) =
      .ok s2)
    (hpres : SubarrayState.sget sf sid "last_command" =
        SubarrayState.sget s2 sid "last_command" ∧
      SubarrayState.sget sf sid "transaction_id" =
        SubarrayState.sget s2 sid "transaction_id") :
    SubarrayState.sget sf sid "last_command" = .ok (JVal.str cn) ∧
    SubarrayState.sget sf sid "transaction_id" = .ok (JVal.str txnId) := by
  unfold SubarrayState.set_command at h1
  unfold SubarrayState.set_transaction_id at h2
  constructor
  · rw [hpres.1, sset_ok_sget_ne h2 (by decide), sset_ok_sget_self h1]
  · rw [hpres.2, sset_ok_sget_self h2]

/-- C5 (amended): every subarray command's transactional body that
completes stamps `last_command` with the command name and
`transaction_id` with the transaction id (in the same single store
transaction as the new target state); every master command's body stamps
`transaction_id` and writes the new device state — the master entry has no
`last_command` field and none is stamped. -/
theorem command_body_stamps (sid txnId : String) :
    (∀ (c : SubarrayCommand) (arg : SubarrayArg) (o : Option ObsState)
       (s s' : Store),
       SDPSubarray.body c sid txnId arg o s = .ok s' →
       SubarrayState.sget s' sid "last_command" =
         .ok (JVal.str c.cmdName) ∧
       SubarrayState.sget s' sid "transaction_id" =
         .ok (JVal.str txnId)) ∧
    (∀ (c : MasterCommand) (s s' : Store),
       SDPMaster.body c txnId s = .ok s' →
       MasterState.transaction_id s' = JVal.str txnId ∧
       MasterState.state s' = some c.targetState) := by
  constructor
  · intro c arg o s s' h
    cases c with
    | On =>
        simp only [SDPSubarray.body] at h
        obtain ⟨s1, h1, h⟩ := except_bind_ok h
        obtain ⟨s2, h2, h⟩ := except_bind_ok h
        obtain ⟨s3, h3, h⟩ := except_bind_ok h
        unfold SubarrayState.set_state at h3
        unfold SubarrayState.set_obs_state_target at h
        refine stamps_of_prefix h1 h2 ⟨?_, ?_⟩
        · rw [sset_ok_sget_ne h (by decide), sset_ok_sget_ne h3 (by decide)]
        · rw [sset_ok_sget_ne h (by decide), sset_ok_sget_ne h3 (by decide)]
    | Off =>
        simp only [SDPSubarray.body] at h
        by_cases ho : o = some ObsState.EMPTY
        · rw [if_pos ho] at h
          obtain ⟨s1, h1, h⟩ := except_bind_ok h
          obtain ⟨s2, h2, h⟩ := except_bind_ok h
          unfold SubarrayState.set_state at h
          refine stamps_of_prefix h1 h2 ⟨?_, ?_⟩
          · rw [sset_ok_sget_ne h (by decide)]
          · rw [sset_ok_sget_ne h (by decide)]
        · rw [if_neg ho] at h
          obtain ⟨s1, h1, h⟩ := except_bind_ok h
          obtain ⟨s2, h2, h⟩ := except_bind_ok h
          obtain ⟨s3, h3, h⟩ := except_bind_ok h
          obtain ⟨s4, h4, h⟩ := except_bind_ok h
          unfold SubarrayState.set_state at h3
          unfold SubarrayState.set_obs_state_target at h4
          unfold SubarrayState.cancel_sbi at h
          refine stamps_of_prefix h1 h2 ⟨?_, ?_⟩
          · rw [end_sbi_sget_ne h (by decide),
                sset_ok_sget_ne h4 (by decide),
                sset_ok_sget_ne h3 (by decide)]
          · rw [end_sbi_sget_ne h (by decide),
                sset_ok_sget_ne h4 (by decide),
                sset_ok_sget_ne h3 (by decide)]
    | AssignResources =>
        cases arg with
        | assign sbi pbs =>
            simp only [SDPSubarray.body] at h
            obtain ⟨s1, h1, h⟩ := except_bind_ok h
            obtain ⟨s2, h2, h⟩ := except_bind_ok h
            obtain ⟨s3, h3, h⟩ := except_bind_ok h
            unfold SubarrayState.set_obs_state_target at h3
            refine stamps_of_prefix h1 h2 ⟨?_, ?_⟩
            · rw [create_sbi_and_pbs_sget_ne h (by decide),
                  sset_ok_sget_ne h3 (by decide)]
            · rw [create_sbi_and_pbs_sget_ne h (by decide),
                  sset_ok_sget_ne h3 (by decide)]
        | noArg =>
            simp only [SDPSubarray.body] at h
            exact absurd h (by simp)
        | configure a b =>
            simp only [SDPSubarray.body] at h
            exact absurd h (by simp)
        | scan a =>
            simp only [SDPSubarray.body] at h
            exact absurd h (by simp)
    | ReleaseResources =>
        simp only [SDPSubarray.body] at h
        obtain ⟨s1, h1, h⟩ := except_bind_ok h
        obtain ⟨s2, h2, h⟩ := except_bind_ok h
        obtain ⟨s3, h3, h⟩ := except_bind_ok h
        unfold SubarrayState.set_obs_state_target at h3
        unfold SubarrayState.finish_sbi at h
        refine stamps_of_prefix h1 h2 ⟨?_, ?_⟩
        · rw [end_sbi_sget_ne h (by decide), sset_ok_sget_ne h3 (by decide)]
        · rw [end_sbi_sget_ne h (by decide), sset_ok_sget_ne h3 (by decide)]
    | Configure =>
        cases arg with
        | configure nst st =>
            simp only [SDPSubarray.body] at h
            obtain ⟨s1, h1, h⟩ := except_bind_ok h
            obtain ⟨s2, h2, h⟩ := except_bind_ok h
            obtain ⟨s3, h3, h⟩ := except_bind_ok h
            obtain ⟨s4, h4, h⟩ := except_bind_ok h
            unfold SubarrayState.set_obs_state_target at h3
            refine stamps_of_prefix h1 h2 ⟨?_, ?_⟩
            · rw [sget_preserved_of_subarrays_eq
                    (set_scan_type_subarrays_eq h) sid "last_command",
                  sget_preserved_of_subarrays_eq
                    (add_scan_types_subarrays_eq h4) sid "last_command",
                  sset_ok_sget_ne h3 (by decide)]
            · rw [sget_preserved_of_subarrays_eq
                    (set_scan_type_subarrays_eq h) sid "transaction_id",
                  sget_preserved_of_subarrays_eq
                    (add_scan_types_subarrays_eq h4) sid "transaction_id",
                  sset_ok_sget_ne h3 (by decide)]
        | noArg =>
            simp only [SDPSubarray.body] at h
            exact absurd h (by simp)
        | assign a b =>
            simp only [SDPSubarray.body] at h
            exact absurd h (by simp)
        | scan a =>
            simp only [SDPSubarray.body] at h
            exact absurd h (by simp)
    | Scan =>
        cases arg with
        | scan scanId =>
            simp only [SDPSubarray.body] at h
            obtain ⟨s1, h1, h⟩ := except_bind_ok h
            obtain ⟨s2, h2, h⟩ := except_bind_ok h
            obtain ⟨s3, h3, h⟩ := except_bind_ok h
            unfold SubarrayState.set_obs_state_target at h3
            unfold SubarrayState.set_scan_id at h
            refine stamps_of_prefix h1 h2 ⟨?_, ?_⟩
            · rw [sget_preserved_of_subarrays_eq (set_sbi_subarrays_eq h)
                    sid "last_command", sset_ok_sget_ne h3 (by decide)]
            · rw [sget_preserved_of_subarrays_eq (set_sbi_subarrays_eq h)
                    sid "transaction_id", sset_ok_sget_ne h3 (by decide)]
        | noArg =>
            simp only [SDPSubarray.body] at h
            exact absurd h (by simp)
        | assign a b =>
            simp only [SDPSubarray.body] at h
            exact absurd h (by simp)
        | configure a b =>
            simp only [SDPSubarray.body] at h
            exact absurd h (by simp)
    | EndScan =>
        simp only [SDPSubarray.body] at h
        obtain ⟨s1, h1, h⟩ := except_bind_ok h
        obtain ⟨s2, h2, h⟩ := except_bind_ok h
        obtain ⟨s3, h3, h⟩ := except_bind_ok h
        unfold SubarrayState.set_obs_state_target at h3
        unfold SubarrayState.set_scan_id at h
        refine stamps_of_prefix h1 h2 ⟨?_, ?_⟩
        · rw [sget_preserved_of_subarrays_eq (set_sbi_subarrays_eq h)
                sid "last_command", sset_ok_sget_ne h3 (by decide)]
        · rw [sget_preserved_of_subarrays_eq (set_sbi_subarrays_eq h)
                sid "transaction_id", sset_ok_sget_ne h3 (by decide)]
    | End =>
        simp only [SDPSubarray.body] at h
        obtain ⟨s1, h1, h⟩ := except_bind_ok h
        obtain ⟨s2, h2, h⟩ := except_bind_ok h
        obtain ⟨s3, h3, h⟩ := except_bind_ok h
        unfold SubarrayState.set_obs_state_target at h3
        refine stamps_of_prefix h1 h2 ⟨?_, ?_⟩
        · rw [sget_preserved_of_subarrays_eq
                (set_scan_type_subarrays_eq h) sid "last_command",
              sset_ok_sget_ne h3 (by decide)]
        · rw [sget_preserved_of_subarrays_eq
                (set_scan_type_subarrays_eq h) sid "transaction_id",
              sset_ok_sget_ne h3 (by decide)]
    | Abort =>
        simp only [SDPSubarray.body] at h
        obtain ⟨s1, h1, h⟩ := except_bind_ok h
        obtain ⟨s2, h2, h⟩ := except_bind_ok h
        unfold SubarrayState.set_obs_state_target at h
        refine stamps_of_prefix h1 h2 ⟨?_, ?_⟩
        · rw [sset_ok_sget_ne h (by decide)]
        · rw [sset_ok_sget_ne h (by decide)]
    | ObsReset =>
        simp only [SDPSubarray.body] at h
        obtain ⟨s1, h1, h⟩ := except_bind_ok h
        obtain ⟨s2, h2, h⟩ := except_bind_ok h
        obtain ⟨s3, h3, h⟩ := except_bind_ok h
        obtain ⟨s4, h4, h⟩ := except_bind_ok h
        unfold SubarrayState.set_obs_state_target at h3
        unfold SubarrayState.set_scan_id at h
        refine stamps_of_prefix h1 h2 ⟨?_, ?_⟩
        · rw [sget_preserved_of_subarrays_eq (set_sbi_subarrays_eq h)
                sid "last_command",
              sget_preserved_of_subarrays_eq
                (set_scan_type_subarrays_eq h4) sid "last_command",
              sset_ok_sget_ne h3 (by decide)]
        · rw [sget_preserved_of_subarrays_eq (set_sbi_subarrays_eq h)
                sid "transaction_id",
              sget_preserved_of_subarrays_eq
                (set_scan_type_subarrays_eq h4) sid "transaction_id",
              sset_ok_sget_ne h3 (by decide)]
    | Restart =>
        simp only [SDPSubarray.body] at h
        obtain ⟨s1, h1, h⟩ := except_bind_ok h
        obtain ⟨s2, h2, h⟩ := except_bind_ok h
        obtain ⟨s3, h3, h⟩ := except_bind_ok h
        unfold SubarrayState.set_obs_state_target at h3
        unfold SubarrayState.cancel_sbi at h
        refine stamps_of_prefix h1 h2 ⟨?_, ?_⟩
        · rw [end_sbi_sget_ne h (by decide), sset_ok_sget_ne h3 (by decide)]
        · rw [end_sbi_sget_ne h (by decide), sset_ok_sget_ne h3 (by decide)]
  · intro c s s' h
    unfold SDPMaster.body at h
    obtain ⟨s1, h1, h⟩ := except_bind_ok h
    unfold MasterState.set_transaction_id at h1
    unfold MasterState.set_state at h
    constructor
    · unfold MasterState.transaction_id
      rw [mset_ok_mget_ne h (by decide), mset_ok_mget_self h1]
    · unfold MasterState.state
      rw [mset_ok_mget_self h]
      simp [DevState.ofName_devName]

/-- Witness for C5 at a concrete subarray `On` body and master `On`
body. -/
theorem command_body_stamps_witness :
    (SDPSubarray.body SubarrayCommand.On "01" "txn-1" SubarrayArg.noArg
        none storeSubInit >>= fun q =>
       pure (SubarrayState.sget q "01" "last_command",
             SubarrayState.sget q "01" "transaction_id")) =
      .ok (.ok (JVal.str "On"), .ok (JVal.str "txn-1")) ∧
    (SDPMaster.body MasterCommand.On "txn-1" storeMaster >>= fun q =>
       pure (MasterState.transaction_id q, MasterState.state q)) =
      .ok (JVal.str "txn-1", some DevState.ON) := by
  constructor
  · have hok : (SDPSubarray.body SubarrayCommand.On "01" "txn-1"
        SubarrayArg.noArg none storeSubInit).toOption.isSome = true := by
      decide
    cases hbody : SDPSubarray.body SubarrayCommand.On "01" "txn-1"
        SubarrayArg.noArg none storeSubInit with
    | error e =>
        rw [hbody] at hok
        simp [Except.toOption] at hok
    | ok q =>
        have hc := (command_body_stamps "01" "txn-1").1 SubarrayCommand.On
          SubarrayArg.noArg none storeSubInit q hbody
        simp only [bind_ok_left, pure_eq_ok]
        rw [hc.1, hc.2]
        rfl
  · have hok : (SDPMaster.body MasterCommand.On "txn-1"
        storeMaster).toOption.isSome = true := by
      decide
    cases hbody : SDPMaster.body MasterCommand.On "txn-1" storeMaster with
    | error e =>
        rw [hbody] at hok
        simp [Except.toOption] at hok
    | ok q =>
        have hc := (command_body_stamps "01" "txn-1").2 MasterCommand.On
          storeMaster q hbody
        simp only [bind_ok_left, pure_eq_ok]
        rw [hc.1, hc.2]
        rfl

end SkaSdpLmc
